import Mathlib

/-!
Verification of the `open_dread_rando` patch pipeline.

A shallow embedding of `src/open_dread_rando/dread_patcher.py` and proofs about
its components: the resource cache (`PatcherEditor.get_file` /
`flush_modified_assets`), the script injector (`create_custom_init`), the warp
patcher (`patch_elevators`), the pickup patcher (`patch_pickups`) and the
orchestrator (`patch`).

Modelling conventions:

* Python dictionaries are association lists (`alookup` / `aupdate` / `aupsert`),
  which preserves insertion order the way CPython dicts do.
* The configuration's `quantity` field (a Python float) is an exact rational
  (`ℚ`); the only arithmetic performed on it is `* 100.0` and the comparison
  `> 1`, both exact on the values the patcher handles.
* Exceptions are `Except` errors; the error value carries the in-memory editor
  state at the moment the exception propagates, so theorems can speak about
  what had (not) been mutated when a run aborts.
* The external `mercury_engine_data_structures` library (FileTreeEditor, Brfld,
  Bmsad) and the companion data files (the template bmsad, `custom_init.lua`,
  `randomizer_powerup.lua`) are not part of the repository source; they are
  modelled from the spec's description of their interfaces, with fields the
  patcher never touches abstracted into `rest`-style components.
-/

set_option maxRecDepth 40000

namespace DreadPatcher

/-- Association-list lookup, first binding wins (models Python `dict[k]`). -/
def alookup {α : Type} : List (String × α) → String → Option α
  | [], _ => none
  | (k2, v) :: rest, k => if k2 = k then some v else alookup rest k

/-- Association-list in-place update of an existing binding
(models Python `d[k] = f(d[k])` / mutating the stored object). -/
def aupdate {α : Type} : List (String × α) → String → (α → α) → List (String × α)
  | [], _, _ => []
  | (k2, v) :: rest, k, f =>
    if k2 = k then (k2, f v) :: rest else (k2, v) :: aupdate rest k f

/-- Association-list upsert: overwrite an existing binding in place, else
append a new binding at the end (models Python `d[k] = v`). -/
def aupsert {α : Type} (l : List (String × α)) (k : String) (v : α) :
    List (String × α) :=
  if (alookup l k).isSome then aupdate l k (fun _ => v) else l ++ [(k, v)]

/-!
Python `str.replace`: `s.replace(pattern, replacement)` replaces every
non-overlapping occurrence of `pattern` from left to right.  Modelled on
`List Char` with a fuel argument equal to the input length (each scan step
consumes at least one character, so the fuel never runs out).
-/

/-- Prefix test: `listStartsWith p s` holds when `p` is a prefix of `s`. -/
def listStartsWith : List Char → List Char → Bool
  | [], _ => true
  | _ :: _, [] => false
  | p :: ps, c :: cs => p = c && listStartsWith ps cs

/-- All suffixes of a list, longest first (including the list itself and `[]`). -/
def tailsOf : List Char → List (List Char)
  | [] => [[]]
  | c :: rest => (c :: rest) :: tailsOf rest

/-- Substring test: `containsSub s pat` holds when `pat` occurs contiguously in `s`. -/
def containsSub (s pat : List Char) : Bool :=
  (tailsOf s).any (fun t => listStartsWith pat t)

/-- One left-to-right scan of Python `str.replace`, fuel-based. -/
def pyReplaceAux (pat rep : List Char) : Nat → List Char → List Char
  | _, [] => []
  | 0, s => s
  | fuel + 1, c :: rest =>
    if pat ≠ [] ∧ listStartsWith pat (c :: rest) = true then
      rep ++ pyReplaceAux pat rep fuel ((c :: rest).drop pat.length)
    else
      c :: pyReplaceAux pat rep fuel rest

/-- Python `str.replace` on character lists. -/
def pyReplaceL (s pat rep : List Char) : List Char :=
  pyReplaceAux pat rep s.length s

/-- Python `str.replace` on strings. -/
def pyStrReplace (s pat rep : String) : String :=
  ⟨pyReplaceL s.data pat.data rep.data⟩

/-!
The pickup parameter rewrite: the block of `patch_pickups` that rewrites
`PICKABLE["functions"][0]["params"]`:

```
item_id: str = pickup["item_id"]
quantity: float = pickup["quantity"]
if item_id == "ITEM_ENERGY_TANKS":
    item_id = "fMaxLife"; quantity *= 100.0
    Param4 = "Full"; Param5 = "fCurrentLife"; Param6 = "LIFE"
elif item_id in {"ITEM_WEAPON_MISSILE_MAX", "ITEM_WEAPON_POWER_BOMB_MAX"}:
    Param4 = "Custom"; Param5 = item_id.replace("_MAX", "_CURRENT")
    Param8 = "guicallbacks.OnSecondaryGunsFire"
Param1 = item_id; Param2 = quantity
if quantity > 1: Param13 = {"type": "f", "value": quantity}
```
-/

/-- A function-parameter value: either a string or a number. -/
inductive Value where
  | str : String → Value
  | num : ℚ → Value
deriving DecidableEq

/-- One entry of the `params` dictionary (`{"type": ..., "value": ...}`). -/
structure Param where
  type_ : String
  value : Value
deriving DecidableEq

/-- The ordered `params` dictionary of the PICKABLE component's function. -/
abbrev Params := List (String × Param)

/-- Model of `params[k]["value"] = v`: mutate the value of an existing entry
(a missing key would be a Python `KeyError`; the template supplies every key
this is called with, so the update-if-present model matches the source on all
non-crashing runs). -/
def setParamValue (ps : Params) (k : String) (v : Value) : Params :=
  aupdate ps k (fun p => { p with value := v })

/-- Model of `params[k] = p`: Python dict assignment, overwrite in place when
the key exists, else append a new binding at the end. -/
def setParamEntry (ps : Params) (k : String) (p : Param) : Params :=
  aupsert ps k p

/-- Result of the item-specific rewrite: the (possibly rewritten) item id and
quantity, and the params with the item-specific extra parameters set. -/
structure RewriteResult where
  item_id : String
  quantity : ℚ
  params : Params
deriving DecidableEq

/-- The `if item_id == "ITEM_ENERGY_TANKS" ... elif ...` block. -/
def applyItemRewrite (item_id : String) (quantity : ℚ) (ps : Params) : RewriteResult :=
  if item_id = "ITEM_ENERGY_TANKS" then
    { item_id := "fMaxLife"
      quantity := quantity * 100
      params :=
        setParamValue (setParamValue (setParamValue ps
          "Param4" (.str "Full"))
          "Param5" (.str "fCurrentLife"))
          "Param6" (.str "LIFE") }
  else if item_id = "ITEM_WEAPON_MISSILE_MAX" ∨ item_id = "ITEM_WEAPON_POWER_BOMB_MAX" then
    { item_id := item_id
      quantity := quantity
      params :=
        setParamValue (setParamValue (setParamValue ps
          "Param4" (.str "Custom"))
          "Param5" (.str (pyStrReplace item_id "_MAX" "_CURRENT")))
          "Param8" (.str "guicallbacks.OnSecondaryGunsFire") }
  else
    { item_id := item_id, quantity := quantity, params := ps }

/-- The whole parameter rewrite: item-specific block, then
`Param1 = item_id`, `Param2 = quantity`, and `Param13` when `quantity > 1`. -/
def setCustomParams (item_id : String) (quantity : ℚ) (ps : Params) : Params :=
  let r := applyItemRewrite item_id quantity ps
  let ps1 := setParamValue r.params "Param1" (.str r.item_id)
  let ps2 := setParamValue ps1 "Param2" (.num r.quantity)
  if r.quantity > 1 then
    setParamEntry ps2 "Param13" { type_ := "f", value := .num r.quantity }
  else
    ps2

/-- A concrete parameter dictionary with the keys the template powerup's
PICKABLE function provides (the shipped `template_powerup_bmsad.json` is a
companion asset outside the modelled source; used as witness input). -/
def sampleParams : Params :=
  [("Param1", ⟨"s", .str ""⟩), ("Param2", ⟨"f", .num 0⟩),
   ("Param3", ⟨"s", .str ""⟩), ("Param4", ⟨"s", .str ""⟩),
   ("Param5", ⟨"s", .str ""⟩), ("Param6", ⟨"s", .str ""⟩),
   ("Param7", ⟨"s", .str ""⟩), ("Param8", ⟨"s", .str ""⟩)]

/-!
The script injector `create_custom_init`.

```
def create_custom_init(inventory, starting_location):
    def _wrap(v): return f'"{v}"'
    replacement = {
        "new_game_inventory": "\n".join("{} = {},".format(k, v) ...),
        "starting_scenario": _wrap(starting_location["scenario"]),
        "starting_actor": _wrap(starting_location["actor"]),
    }
    code = <read custom_init.lua>
    for key, content in replacement.items():
        code = code.replace(f'TEMPLATE("{key}")', content)
    return code
```

The template file `custom_init.lua` is a companion asset outside the modelled
source; the template text is therefore a parameter of the model, and a
concrete template modelled from the spec is provided below.
-/

/-- Scenario/actor pair (used for `starting_location` and for a warp edit's
`destination`). -/
structure SceneActor where
  scenario : String
  actor : String
deriving DecidableEq

/-- Python `'"{}"'.format(v)`, the `_wrap` helper. -/
def wrap (v : String) : String := "\"" ++ v ++ "\""

/-- Python `"\n".join(lines)`. -/
def joinLines : List String → String
  | [] => ""
  | [x] => x
  | x :: y :: rest => x ++ "\n" ++ joinLines (y :: rest)

/-- The rendered `new_game_inventory` replacement:
`"\n".join("{} = {},".format(key, value) for key, value in inventory.items())`. -/
def new_game_inventory_text (inventory : List (String × Int)) : String :=
  joinLines (inventory.map (fun kv => kv.1 ++ " = " ++ toString kv.2 ++ ","))

/-- The placeholder token `TEMPLATE("<key>")`. -/
def placeholderPat (k : String) : String := "TEMPLATE(\"" ++ k ++ "\")"

/-- `create_custom_init`, with the template file's text as a parameter. -/
def create_custom_init (template : String) (inventory : List (String × Int))
    (starting_location : SceneActor) : String :=
  let replacement : List (String × String) :=
    [("new_game_inventory", new_game_inventory_text inventory),
     ("starting_scenario", wrap starting_location.scenario),
     ("starting_actor", wrap starting_location.actor)]
  replacement.foldl (fun code kc => pyStrReplace code (placeholderPat kc.1) kc.2) template

/-- Modelled from the spec: the fixed text segments of the initialization
script template around the placeholders (the shipped `custom_init.lua` is a
companion asset and is not in the modelled source). -/
def c6T1 : String := "StartingInventory = \x7b\n"

/-- Modelled from the spec: template text between the inventory and
starting-scenario placeholders. -/
def c6T2 : String := "\n\x7d\nStartingScenario = "

/-- Modelled from the spec: template text between the starting-scenario and
starting-actor placeholders. -/
def c6T3 : String := "\nStartingActor = "

/-- Modelled from the spec: template text after the starting-actor placeholder. -/
def c6T4 : String := "\n"

/-- Modelled from the spec: a fixed text template for the initialization
script containing the three named placeholders. -/
def custom_init_template : String :=
  c6T1 ++ placeholderPat "new_game_inventory" ++
  c6T2 ++ placeholderPat "starting_scenario" ++
  c6T3 ++ placeholderPat "starting_actor" ++ c6T4

/-- The spec's description of the injector's output on `custom_init_template`:
the inventory rendered as ordered `key = value,` lines in place of the
inventory placeholder, and the quoted scenario/actor in place of the other
two placeholders. -/
def create_custom_init_spec (inventory : List (String × Int))
    (starting_location : SceneActor) : String :=
  c6T1 ++ joinLines (inventory.map (fun kv => kv.1 ++ " = " ++ toString kv.2 ++ ",")) ++
  c6T2 ++ "\"" ++ starting_location.scenario ++ "\"" ++
  c6T3 ++ "\"" ++ starting_location.actor ++ "\"" ++ c6T4

/-!
The editor model.  `PatcherEditor` extends the external `FileTreeEditor`
(resource repository).  The repository's parsed assets, package membership map
and raw assets are modelled as fields of one `Editor` state; `memory_files` is
the `PatcherEditor` cache.  `parsedLog` records each `get_parsed_asset` call
the cache makes to the repository (to state "parsed at most once"); `addedLog`
records each `add_new_asset` call with its target package set; `ensured`
records the accumulated `ensure_present` registrations.
-/

/-- Modelled from the spec: the `USABLE` (teleporter) behavior component, with
its destination-scenario and destination-spawn-point fields; the component's
remaining fields are abstracted into `rest`. -/
structure Usable where
  sScenarioName : String
  sTargetSpawnPoint : String
  rest : String
deriving DecidableEq

/-- Modelled from the spec: an actor of a scene resource — its optional
`USABLE` component, whether it has a `LIFE` component, its actor-definition
link, and all other data abstracted into `rest`. -/
structure Actor where
  usable : Option Usable
  hasLife : Bool
  oActorDefLink : String
  rest : String
deriving DecidableEq

/-- Modelled from the spec: a scene resource (`Brfld`), a tree of
layer name → actor name → actor. -/
structure Brfld where
  layers : List (String × List (String × Actor))
deriving DecidableEq

/-- `Brfld.actors_for_layer`: Python raises `KeyError` on a missing layer,
modelled by `Option`. -/
def actors_for_layer (b : Brfld) (layer : String) : Option (List (String × Actor)) :=
  alookup b.layers layer

/-- The synthesized pickup actor-definition's PICKABLE component: the two
caption fields set by `patch_pickups` and the function-parameter dictionary. -/
structure Pickable where
  sOnPickCaption : String
  sOnPickTankUnknownCaption : String
  functionParams : Params
deriving DecidableEq

/-- Modelled from the spec: the actor-definition template
(`template_powerup_bmsad.json`), restricted to the parts `patch_pickups`
rewrites: the `name` field and the PICKABLE component. -/
structure BmsadTemplate where
  name : String
  pickable : Pickable
deriving DecidableEq

/-- A resource held by the repository / inserted by the patcher. -/
inductive Asset where
  | raw : String → Asset
  | scenario : Brfld → Asset
  | bmsad : BmsadTemplate → Asset
  | lua : Asset
deriving DecidableEq

/-- The combined repository + `PatcherEditor` state. -/
structure Editor where
  assets : List (String × Asset)
  pkgMap : List (String × List String)
  memory_files : List (String × Brfld)
  parsedLog : List String
  addedLog : List (String × Asset × Finset String)
  ensured : Finset (String × String)
deriving DecidableEq

/-- `path_for_level` from the source. -/
def path_for_level (level_name : String) : String :=
  "maps/levels/c10_samus/" ++ level_name ++ "/" ++ level_name

/-- Repository existence check (`FileTreeEditor.does_asset_exists`). -/
def does_asset_exists (s : Editor) (path : String) : Bool :=
  (alookup s.assets path).isSome

/-- Repository raw read (`FileTreeEditor.get_raw_asset`); a missing asset is a
Python exception, modelled by `none`. -/
def get_raw_asset (s : Editor) (path : String) : Option Asset :=
  alookup s.assets path

/-- Repository package query (`FileTreeEditor.find_pkgs`): the container
groups holding `path`.  Only queried for pre-existing assets, so it reads the
fixed `pkgMap`. -/
def find_pkgs (s : Editor) (path : String) : List String :=
  (alookup s.pkgMap path).getD []

/-- Repository insertion (`FileTreeEditor.add_new_asset`) with explicit
container-group targeting; the insertion and its target set are recorded in
`addedLog`. -/
def add_new_asset (s : Editor) (path : String) (a : Asset) (in_pkgs : Finset String) :
    Editor :=
  { s with assets := s.assets ++ [(path, a)],
           addedLog := s.addedLog ++ [(path, a, in_pkgs)] }

/-- Repository write-back (`FileTreeEditor.replace_asset`). -/
def replace_asset (s : Editor) (path : String) (a : Asset) : Editor :=
  { s with assets := aupsert s.assets path a }

/-- Repository dependency registration (`FileTreeEditor.ensure_present`),
idempotent by construction. -/
def ensure_present (s : Editor) (pkg dep : String) : Editor :=
  { s with ensured := insert (pkg, dep) s.ensured }

/-- Repository parse (`FileTreeEditor.get_parsed_asset` with a `Brfld` type
hint — the only type the patcher reads through the cache); a missing or
differently-typed asset is a Python exception, modelled by `none`. -/
def get_parsed_asset (s : Editor) (path : String) : Option Brfld :=
  match alookup s.assets path with
  | some (.scenario b) => some b
  | _ => none

/-- `PatcherEditor.get_file`: return the cached instance if present, else ask
the repository to parse (recorded in `parsedLog`), cache the result and return
it.  The returned editor is the state after the read. -/
def get_file (s : Editor) (path : String) : Option (Brfld × Editor) :=
  match alookup s.memory_files path with
  | some r => some (r, s)
  | none =>
    match get_parsed_asset s path with
    | some r =>
      some (r, { s with memory_files := s.memory_files ++ [(path, r)],
                        parsedLog := s.parsedLog ++ [path] })
    | none => none

/-- `PatcherEditor.get_scenario`. -/
def get_scenario (s : Editor) (name : String) : Option (Brfld × Editor) :=
  get_file s (path_for_level name ++ ".brfld")

/-- The write-back loop of `flush_modified_assets`:
`for name, resource in memory_files.items(): replace_asset(name, resource)`. -/
def writeBack : List (String × Brfld) → List (String × Asset) → List (String × Asset)
  | [], assets => assets
  | (p, b) :: rest, assets => writeBack rest (aupsert assets p (.scenario b))

/-- `PatcherEditor.flush_modified_assets`: write every cached instance back to
the repository, then clear the cache. -/
def flush_modified_assets (s : Editor) : Editor :=
  { s with assets := writeBack s.memory_files s.assets, memory_files := [] }

/-- The effective content of a path: the cached instance when present, else
the repository's asset (what any subsequent read through the editor observes). -/
def effView (s : Editor) (path : String) : Option Asset :=
  match alookup s.memory_files path with
  | some b => some (.scenario b)
  | none => alookup s.assets path

/-- Run a sequence of cache reads, keeping the state of each successful read
(a failed read raises in Python and changes nothing). -/
def runGets (s : Editor) (ops : List String) : Editor :=
  match ops with
  | [] => s
  | p :: rest =>
    match get_file s p with
    | some (_, s') => runGets s' rest
    | none => runGets s rest

/-- Mutating an actor object held inside a cached scene resource
(`actor.field = ...` writes through the shared cached instance). -/
def updateCachedActor (s : Editor) (path layer name : String) (f : Actor → Actor) :
    Editor :=
  { s with memory_files :=
      aupdate s.memory_files path (fun b =>
        { layers := aupdate b.layers layer (fun acts => aupdate acts name f) }) }

/-- Reference to an actor in a scene: the `(scenario, layer, actor)` triple of
a warp-edit's `teleporter` or a pickup-edit's `pickup_actor`. -/
structure ActorRef where
  scenario : String
  layer : String
  actor : String
deriving DecidableEq

/-- Errors the patcher can raise. -/
inductive PatchFatal where
  | schemaError : PatchFatal
  | missingAsset : String → PatchFatal
  | keyError : ActorRef → PatchFatal
  | valueError : String → PatchFatal
  | fileNotFound : String → PatchFatal
deriving DecidableEq

/-- Python `str()` of the actor-reference dict, as interpolated into the
`ValueError` message `f'Actor {elevator["teleporter"]} is not a teleporter'`. -/
def actorRefStr (r : ActorRef) : String :=
  "\x7b'scenario': '" ++ r.scenario ++ "', 'layer': '" ++ r.layer ++
  "', 'actor': '" ++ r.actor ++ "'\x7d"

/-- One warp-edit record. -/
structure ElevatorConfig where
  teleporter : ActorRef
  destination : SceneActor
deriving DecidableEq

/-- `create_init_copy`: back up `system/scripts/init.lc` as
`original_init.lc` unless the backup already exists. -/
def create_init_copy (s : Editor) : Except (PatchFatal × Editor) Editor :=
  let original_init := "system/scripts/original_init.lc"
  if does_asset_exists s original_init then .ok s
  else
    match get_raw_asset s "system/scripts/init.lc" with
    | none => .error (.missingAsset "system/scripts/init.lc", s)
    | some original_lc =>
      .ok (add_new_asset s original_init original_lc
        ((find_pkgs s "system/scripts/init.lc").toFinset))

/-- The body of `patch_elevators` for one warp-edit record. -/
def patch_one_elevator (s : Editor) (e : ElevatorConfig) :
    Except (PatchFatal × Editor) Editor :=
  let scnFile := path_for_level e.teleporter.scenario ++ ".brfld"
  match get_file s scnFile with
  | none => .error (.missingAsset scnFile, s)
  | some (level, s1) =>
    match actors_for_layer level e.teleporter.layer with
    | none => .error (.keyError e.teleporter, s1)
    | some actors =>
      match alookup actors e.teleporter.actor with
      | none => .error (.keyError e.teleporter, s1)
      | some actor =>
        match actor.usable with
        | none =>
          .error (.valueError ("Actor " ++ actorRefStr e.teleporter ++
            " is not a teleporter"), s1)
        | some usable =>
          let usable2 : Usable :=
            { usable with sScenarioName := e.destination.scenario,
                          sTargetSpawnPoint := e.destination.actor }
          .ok (updateCachedActor s1 scnFile e.teleporter.layer e.teleporter.actor
            (fun a => { a with usable := some usable2 }))

/-- `patch_elevators`: process the warp-edit records in configuration order;
an exception aborts the loop. -/
def patch_elevators (s : Editor) : List ElevatorConfig → Except (PatchFatal × Editor) Editor
  | [] => .ok s
  | e :: rest =>
    match patch_one_elevator s e with
    | .error err => .error err
    | .ok s1 => patch_elevators s1 rest

/-- One pickup-edit record. -/
structure PickupConfig where
  pickup_actor : ActorRef
  item_id : String
  quantity : ℚ
  caption : String
deriving DecidableEq

/-- The fixed list of shared model dependencies from `patch_pickups`. -/
def model_dependencies : List String :=
  ["actors/items/itemsphere/animations/relax.bcskla",
   "actors/items/itemsphere/charclasses/timeline.bmsas",
   "actors/items/itemsphere/collisions/itemsphere.bmscd",
   "actors/items/itemsphere/fx/impact.bcptl",
   "actors/items/itemsphere/fx/impact_itemsphere.bcmdl",
   "actors/items/itemsphere/fx/impact_itemsphere.bcskla",
   "actors/items/itemsphere/fx/imats/impact_itemsphere_itemsphere.bsmat",
   "actors/items/itemsphere/models/itemsphere.bcmdl",
   "actors/items/itemsphere/models/imats/itemsphere_mp_opaque_01.bsmat"]

/-- The name given to the `i`-th synthesized actor definition. -/
def bmsadName (i : Nat) : String := "randomizer_powerup_" ++ toString i

/-- The path of the `i`-th synthesized actor definition. -/
def bmsadPath (i : Nat) : String :=
  "actors/items/randomizer_powerup/charclasses/" ++ bmsadName i ++ ".bmsad"

/-- The path of the shared behavior script inserted after all pickups. -/
def luaPath : String := "actors/items/randomizer_powerup/scripts/randomizer_powerup.lc"

/-- The deep-copied template after the per-pickup rewrites: the unique name,
both caption fields set to the configured caption, and the function-parameter
rewrite. -/
def pickupTemplate (tmpl : BmsadTemplate) (i : Nat) (p : PickupConfig) : BmsadTemplate :=
  { name := bmsadName i
    pickable :=
      { sOnPickCaption := p.caption
        sOnPickTankUnknownCaption := p.caption
        functionParams := setCustomParams p.item_id p.quantity
          tmpl.pickable.functionParams } }

/-- The container groups holding a pickup's scene resource
(`set(editor.find_pkgs(path_for_level(...) + ".brfld"))`). -/
def pkgsForLevel (s : Editor) (p : PickupConfig) : Finset String :=
  (find_pkgs s (path_for_level p.pickup_actor.scenario ++ ".brfld")).toFinset

/-- The dependency loop of `patch_pickups`: for every package of the level,
ensure `base.bmsat`, `timeline.bmsas` and each model dependency are present. -/
def ensure_pickup_deps (s : Editor) (pkgs : Finset String) : Editor :=
  { s with ensured := s.ensured ∪
      pkgs ×ˢ ("system/animtrees/base.bmsat" ::
               "actors/items/itemsphere/charclasses/timeline.bmsas" ::
               model_dependencies).toFinset }

/-- The body of `patch_pickups` for the `i`-th pickup-edit record; `acc` is
the running `pkgs_for_lua` accumulator. -/
def patch_one_pickup (tmpl : BmsadTemplate) (s : Editor) (acc : Finset String)
    (i : Nat) (p : PickupConfig) :
    Except (PatchFatal × Editor) (Editor × Finset String) :=
  let scnFile := path_for_level p.pickup_actor.scenario ++ ".brfld"
  let pkgs_for_level := pkgsForLevel s p
  let acc1 := acc ∪ pkgs_for_level
  match get_file s scnFile with
  | none => .error (.missingAsset scnFile, s)
  | some (level, s1) =>
    match actors_for_layer level p.pickup_actor.layer with
    | none => .error (.keyError p.pickup_actor, s1)
    | some actors =>
      match alookup actors p.pickup_actor.actor with
      | none => .error (.keyError p.pickup_actor, s1)
      | some _ =>
        let new_template := pickupTemplate tmpl i p
        let new_path := bmsadPath i
        let s2 := add_new_asset s1 new_path (.bmsad new_template) pkgs_for_level
        let s3 := updateCachedActor s2 scnFile p.pickup_actor.layer p.pickup_actor.actor
          (fun a => { a with oActorDefLink := "actordef:" ++ new_path,
                             hasLife := false })
        .ok (ensure_pickup_deps s3 pkgs_for_level, acc1)

/-- The `for i, pickup in enumerate(pickups_config)` loop of `patch_pickups`. -/
def patch_pickups_go (tmpl : BmsadTemplate) :
    Editor → Finset String → Nat → List PickupConfig →
    Except (PatchFatal × Editor) (Editor × Finset String)
  | s, acc, _, [] => .ok (s, acc)
  | s, acc, i, p :: rest =>
    match patch_one_pickup tmpl s acc i p with
    | .error err => .error err
    | .ok (s1, acc1) => patch_pickups_go tmpl s1 acc1 (i + 1) rest

/-- `patch_pickups`: process every pickup-edit record, then insert the shared
behavior script (`randomizer_powerup.lc`, an opaque companion blob) into the
accumulated union of container groups. -/
def patch_pickups (tmpl : BmsadTemplate) (s : Editor) (pickups_config : List PickupConfig) :
    Except (PatchFatal × Editor) Editor :=
  match patch_pickups_go tmpl s ∅ 0 pickups_config with
  | .error err => .error err
  | .ok (s1, pkgs_for_lua) => .ok (add_new_asset s1 luaPath .lua pkgs_for_lua)

/-!
The orchestrator `patch`.
-/

/-- The output filesystem: existing directories and the log of export targets. -/
structure Fs where
  dirs : List String
  exported : List String
deriving DecidableEq

/-- `shutil.rmtree(path)`: removes the directory, raising `FileNotFoundError`
(modelled by `none`) when it does not exist. -/
def rmtree (fs : Fs) (path : String) : Option Fs :=
  if path ∈ fs.dirs then some { fs with dirs := fs.dirs.erase path } else none

/-- `editor.save_modified_pkgs(out_romfs)`: export the finalized packages to
the output location. -/
def save_modified_pkgs (fs : Fs) (path : String) : Fs :=
  { dirs := fs.dirs ++ [path], exported := fs.exported ++ [path] }

/-- The validated configuration record. -/
structure Configuration where
  starting_items : List (String × Int)
  starting_location : SceneActor
  elevators : Option (List ElevatorConfig)
  pickups : List PickupConfig
deriving DecidableEq

/-- Every stage of `patch` before the output-directory steps: back up the
init script, overwrite `init.lc` with the generated script, run the warp
patcher when warp edits are present, run the pickup patcher, and commit the
cache. -/
def stages_before_export (init_template : String) (tmpl : BmsadTemplate)
    (cfg : Configuration) (s0 : Editor) : Except (PatchFatal × Editor) Editor :=
  match create_init_copy s0 with
  | .error err => .error err
  | .ok s1 =>
    let s2 := replace_asset s1 "system/scripts/init.lc"
      (.raw (create_custom_init init_template cfg.starting_items cfg.starting_location))
    match (match cfg.elevators with
           | some els => patch_elevators s2 els
           | none => .ok s2) with
    | .error err => .error err
    | .ok s3 =>
      match patch_pickups tmpl s3 cfg.pickups with
      | .error err => .error err
      | .ok s4 => .ok (flush_modified_assets s4)

/-- The top-level `patch`: schema validation (its outcome is the `schemaOk`
parameter), the in-memory stages, then `shutil.rmtree(out_romfs)` and the
export.  The error value carries the editor and filesystem state at the
moment the exception propagates. -/
def patch (init_template : String) (tmpl : BmsadTemplate) (schemaOk : Bool)
    (cfg : Configuration) (s0 : Editor) (fs : Fs) (output_path : String) :
    Except (PatchFatal × Editor × Fs) (Editor × Fs) :=
  if schemaOk then
    match stages_before_export init_template tmpl cfg s0 with
    | .error (e, s) => .error (e, s, fs)
    | .ok s5 =>
      let out_romfs := output_path ++ "/romfs"
      match rmtree fs out_romfs with
      | none => .error (.fileNotFound out_romfs, s5, fs)
      | some fs1 => .ok (s5, save_modified_pkgs fs1 out_romfs)
  else
    .error (.schemaError, s0, fs)

/-!
Concrete fixtures used by the witness theorems.
-/

/-- A teleporter-capable actor. -/
def teleActor : Actor :=
  { usable := some { sScenarioName := "s_old", sTargetSpawnPoint := "a_old",
                     rest := "u_rest" },
    hasLife := false, oActorDefLink := "actordef:old_elev", rest := "elev_rest" }

/-- An actor without a `USABLE` component (it has a `LIFE` component). -/
def plainActor : Actor :=
  { usable := none, hasLife := true, oActorDefLink := "actordef:old_item",
    rest := "item_rest" }

/-- A scene resource holding both fixture actors in layer `default`. -/
def sampleBrfld : Brfld :=
  { layers := [("default", [("elev", teleActor), ("item", plainActor)])] }

/-- A repository with the init script and one scenario `s1`. -/
def sampleEditor : Editor :=
  { assets := [("system/scripts/init.lc", .raw "-- init"),
               (path_for_level "s1" ++ ".brfld", .scenario sampleBrfld)],
    pkgMap := [(path_for_level "s1" ++ ".brfld", ["pkg_a", "pkg_b"]),
               ("system/scripts/init.lc", ["pkg_sys"])],
    memory_files := [], parsedLog := [], addedLog := [], ensured := ∅ }

/-- The fixture editor after the scenario `s1` has been read once through the
cache. -/
def sampleEditorCached : Editor :=
  { sampleEditor with
      memory_files := [(path_for_level "s1" ++ ".brfld", sampleBrfld)],
      parsedLog := [path_for_level "s1" ++ ".brfld"] }

/-- A template fixture. -/
def sampleTemplate : BmsadTemplate :=
  { name := "randomizer_powerup",
    pickable := { sOnPickCaption := "caption", sOnPickTankUnknownCaption := "caption",
                  functionParams := sampleParams } }

/-- A warp edit pointing at the teleporter-capable fixture actor. -/
def elevOkConfig : ElevatorConfig :=
  { teleporter := { scenario := "s1", layer := "default", actor := "elev" },
    destination := { scenario := "s2", actor := "spawn" } }

/-- A warp edit pointing at the fixture actor without a `USABLE` component. -/
def elevBadConfig : ElevatorConfig :=
  { teleporter := { scenario := "s1", layer := "default", actor := "item" },
    destination := { scenario := "s2", actor := "spawn" } }

/-- A generic pickup edit (no item-specific rewrite, quantity 1). -/
def pickupConfig1 : PickupConfig :=
  { pickup_actor := { scenario := "s1", layer := "default", actor := "item" },
    item_id := "ITEM_X", quantity := 1, caption := "X!" }

/-- A second generic pickup edit in the same scenario (quantity 0). -/
def pickupConfig2 : PickupConfig :=
  { pickup_actor := { scenario := "s1", layer := "default", actor := "elev" },
    item_id := "ITEM_Y", quantity := 0, caption := "Y!" }

/-- The fixture editor after running the pickup patcher on the two fixture
pickups (defined by running the model; the defining equation is discharged by
`rfl` in the witness). -/
def pickupsRunResult : Editor :=
  match patch_pickups sampleTemplate sampleEditor [pickupConfig1, pickupConfig2] with
  | .ok s => s
  | .error _ => sampleEditor

/-- A configuration with no warp edits and no pickups. -/
def emptyConfig : Configuration :=
  { starting_items := [("ITEM_MAX_LIFE", 99)],
    starting_location := { scenario := "s1", actor := "start" },
    elevators := none, pickups := [] }

/-- An output filesystem without the `out/romfs` directory. -/
def freshFs : Fs := { dirs := ["out"], exported := [] }

/-- The editor state after the pre-export stages of the orchestrator fixture
run (defined by running the model). -/
def emptyRunStaged : Editor :=
  match stages_before_export custom_init_template sampleTemplate emptyConfig sampleEditor with
  | .ok s => s
  | .error _ => sampleEditor

/-!
Lemmas about the association-list primitives.
-/

theorem alookup_aupdate_eq {α : Type} (l : List (String × α)) (k : String) (f : α → α) :
    alookup (aupdate l k f) k = (alookup l k).map f := by
  induction l with
  | nil => rfl
  | cons hd tl ih =>
    obtain ⟨k2, v⟩ := hd
    by_cases h : k2 = k <;> simp [alookup, aupdate, h, ih]

theorem alookup_aupdate_ne {α : Type} (l : List (String × α)) (k k' : String)
    (f : α → α) (h : k' ≠ k) : alookup (aupdate l k f) k' = alookup l k' := by
  induction l with
  | nil => rfl
  | cons hd tl ih =>
    obtain ⟨k2, v⟩ := hd
    by_cases h2 : k2 = k
    · subst h2
      simp [alookup, aupdate, Ne.symm h]
    · by_cases h3 : k2 = k' <;> simp [alookup, aupdate, h2, h3, h, ih]

theorem alookup_append {α : Type} (l1 l2 : List (String × α)) (k : String) :
    alookup (l1 ++ l2) k = ((alookup l1 k).orElse (fun _ => alookup l2 k)) := by
  induction l1 with
  | nil => simp [alookup]
  | cons hd tl ih =>
    obtain ⟨k2, v⟩ := hd
    by_cases h : k2 = k <;> simp [alookup, h, ih]

theorem alookup_aupsert_eq {α : Type} (l : List (String × α)) (k : String) (v : α) :
    alookup (aupsert l k v) k = some v := by
  unfold aupsert
  by_cases h : (alookup l k).isSome
  · rw [if_pos h, alookup_aupdate_eq]
    obtain ⟨w, hw⟩ := Option.isSome_iff_exists.mp h
    rw [hw]; rfl
  · rw [if_neg h, alookup_append]
    rw [Option.not_isSome_iff_eq_none.mp h]
    simp [alookup]

theorem alookup_aupsert_ne {α : Type} (l : List (String × α)) (k k' : String) (v : α)
    (h : k' ≠ k) : alookup (aupsert l k v) k' = alookup l k' := by
  unfold aupsert
  by_cases h2 : (alookup l k).isSome
  · rw [if_pos h2, alookup_aupdate_ne _ _ _ _ h]
  · rw [if_neg h2, alookup_append]
    simp [alookup, Ne.symm h]

/-!
Characterization of the pickup parameter rewrite.
-/

theorem alookup_setParamValue_eq (ps : Params) (k : String) (v : Value) :
    alookup (setParamValue ps k v) k = (alookup ps k).map (fun p => { p with value := v }) :=
  alookup_aupdate_eq ps k _

theorem alookup_setParamValue_ne (ps : Params) (k k' : String) (v : Value)
    (h : k' ≠ k) : alookup (setParamValue ps k v) k' = alookup ps k' :=
  alookup_aupdate_ne ps k k' _ h

theorem alookup_setParamEntry_eq (ps : Params) (k : String) (p : Param) :
    alookup (setParamEntry ps k p) k = some p :=
  alookup_aupsert_eq ps k p

theorem alookup_setParamEntry_ne (ps : Params) (k k' : String) (p : Param)
    (h : k' ≠ k) : alookup (setParamEntry ps k p) k' = alookup ps k' :=
  alookup_aupsert_ne ps k k' p h

theorem applyItemRewrite_energy (q : ℚ) (ps : Params) :
    applyItemRewrite "ITEM_ENERGY_TANKS" q ps =
      { item_id := "fMaxLife", quantity := q * 100,
        params :=
          setParamValue (setParamValue (setParamValue ps
            "Param4" (.str "Full"))
            "Param5" (.str "fCurrentLife"))
            "Param6" (.str "LIFE") } := by
  unfold applyItemRewrite
  rw [if_pos rfl]

theorem applyItemRewrite_missile (q : ℚ) (ps : Params) :
    applyItemRewrite "ITEM_WEAPON_MISSILE_MAX" q ps =
      { item_id := "ITEM_WEAPON_MISSILE_MAX", quantity := q,
        params :=
          setParamValue (setParamValue (setParamValue ps
            "Param4" (.str "Custom"))
            "Param5" (.str "ITEM_WEAPON_MISSILE_CURRENT"))
            "Param8" (.str "guicallbacks.OnSecondaryGunsFire") } := by
  unfold applyItemRewrite
  rw [if_neg (by decide), if_pos (by decide)]
  have h : pyStrReplace "ITEM_WEAPON_MISSILE_MAX" "_MAX" "_CURRENT"
      = "ITEM_WEAPON_MISSILE_CURRENT" := by decide
  rw [h]

theorem applyItemRewrite_powerbomb (q : ℚ) (ps : Params) :
    applyItemRewrite "ITEM_WEAPON_POWER_BOMB_MAX" q ps =
      { item_id := "ITEM_WEAPON_POWER_BOMB_MAX", quantity := q,
        params :=
          setParamValue (setParamValue (setParamValue ps
            "Param4" (.str "Custom"))
            "Param5" (.str "ITEM_WEAPON_POWER_BOMB_CURRENT"))
            "Param8" (.str "guicallbacks.OnSecondaryGunsFire") } := by
  unfold applyItemRewrite
  rw [if_neg (by decide), if_pos (by decide)]
  have h : pyStrReplace "ITEM_WEAPON_POWER_BOMB_MAX" "_MAX" "_CURRENT"
      = "ITEM_WEAPON_POWER_BOMB_CURRENT" := by decide
  rw [h]

theorem applyItemRewrite_params_lookup (item_id : String) (q : ℚ) (ps : Params)
    (k : String) (h4 : k ≠ "Param4") (h5 : k ≠ "Param5") (h6 : k ≠ "Param6")
    (h8 : k ≠ "Param8") :
    alookup (applyItemRewrite item_id q ps).params k = alookup ps k := by
  unfold applyItemRewrite
  split_ifs <;> simp [alookup_setParamValue_ne, h4, h5, h6, h8]

theorem setCustomParams_lookup_Param13 (item_id : String) (q : ℚ) (ps : Params) :
    alookup (setCustomParams item_id q ps) "Param13" =
      if (applyItemRewrite item_id q ps).quantity > 1
      then some { type_ := "f", value := .num (applyItemRewrite item_id q ps).quantity }
      else alookup ps "Param13" := by
  simp only [setCustomParams]
  by_cases hq : (applyItemRewrite item_id q ps).quantity > 1
  · rw [if_pos hq, if_pos hq, alookup_setParamEntry_eq]
  · rw [if_neg hq, if_neg hq,
      alookup_setParamValue_ne _ _ _ _ (by decide),
      alookup_setParamValue_ne _ _ _ _ (by decide),
      applyItemRewrite_params_lookup _ _ _ _ (by decide) (by decide) (by decide) (by decide)]

theorem setCustomParams_lookup_Param1 (item_id : String) (q : ℚ) (ps : Params) :
    alookup (setCustomParams item_id q ps) "Param1" =
      (alookup ps "Param1").map
        (fun p => { p with value := .str (applyItemRewrite item_id q ps).item_id }) := by
  simp only [setCustomParams]
  by_cases hq : (applyItemRewrite item_id q ps).quantity > 1
  · rw [if_pos hq, alookup_setParamEntry_ne _ _ _ _ (by decide),
      alookup_setParamValue_ne _ _ _ _ (by decide), alookup_setParamValue_eq,
      applyItemRewrite_params_lookup _ _ _ _ (by decide) (by decide) (by decide) (by decide)]
  · rw [if_neg hq,
      alookup_setParamValue_ne _ _ _ _ (by decide), alookup_setParamValue_eq,
      applyItemRewrite_params_lookup _ _ _ _ (by decide) (by decide) (by decide) (by decide)]

theorem setCustomParams_lookup_Param2 (item_id : String) (q : ℚ) (ps : Params) :
    alookup (setCustomParams item_id q ps) "Param2" =
      (alookup ps "Param2").map
        (fun p => { p with value := .num (applyItemRewrite item_id q ps).quantity }) := by
  simp only [setCustomParams]
  by_cases hq : (applyItemRewrite item_id q ps).quantity > 1
  · rw [if_pos hq, alookup_setParamEntry_ne _ _ _ _ (by decide),
      alookup_setParamValue_eq,
      alookup_setParamValue_ne _ _ _ _ (by decide),
      applyItemRewrite_params_lookup _ _ _ _ (by decide) (by decide) (by decide) (by decide)]
  · rw [if_neg hq, alookup_setParamValue_eq,
      alookup_setParamValue_ne _ _ _ _ (by decide),
      applyItemRewrite_params_lookup _ _ _ _ (by decide) (by decide) (by decide) (by decide)]

theorem setCustomParams_lookup_notSpecial (item_id : String) (q : ℚ) (ps : Params)
    (k : String) (h1 : k ≠ "Param1") (h2 : k ≠ "Param2") (h13 : k ≠ "Param13") :
    alookup (setCustomParams item_id q ps) k =
      alookup (applyItemRewrite item_id q ps).params k := by
  simp only [setCustomParams]
  by_cases hq : (applyItemRewrite item_id q ps).quantity > 1
  · rw [if_pos hq, alookup_setParamEntry_ne _ _ _ _ h13,
      alookup_setParamValue_ne _ _ _ _ h2, alookup_setParamValue_ne _ _ _ _ h1]
  · rw [if_neg hq,
      alookup_setParamValue_ne _ _ _ _ h2, alookup_setParamValue_ne _ _ _ _ h1]

/-!
Claims C1, C2, C3: the pickup parameter rewrite.
-/

/-- C1 (counterexample): the claim "if the record's quantity is <= 1 then no
Param13 is added" is false: for `item_id = "ITEM_ENERGY_TANKS"` with record
quantity 1 (which is ≤ 1), the quantity is first rewritten to 100, and the
`quantity > 1` check uses the rewritten value, so Param13 is added (with
value 100) even though the record's quantity was ≤ 1. -/
theorem C1_counterexample :
    ((1 : ℚ) ≤ 1) ∧
    alookup sampleParams "Param13" = none ∧
    alookup (setCustomParams "ITEM_ENERGY_TANKS" 1 sampleParams) "Param13" =
      some { type_ := "f", value := .num 100 } := by
  refine ⟨le_refl 1, by decide, ?_⟩
  rw [setCustomParams_lookup_Param13]
  have hq : (applyItemRewrite "ITEM_ENERGY_TANKS" 1 sampleParams).quantity = 100 := by
    rw [applyItemRewrite_energy]
    norm_num
  rw [hq, if_pos (by norm_num)]

/-- C1 (amended): writing the quantity guard on the possibly-rewritten
quantity — for every pickup-edit record, if the (possibly item-rewritten)
quantity is ≤ 1 then the Param13 entry of the pickable component's
function-parameter list is left exactly as in the template (no extra display
parameter is added), and if it is > 1 then Param13 is set to a numeric
parameter carrying the rewritten quantity; parameters 1 and 2 are
unconditionally set to the (possibly rewritten) item id and quantity. -/
theorem C1_pickup_params_amended (item_id : String) (quantity : ℚ) (ps : Params) :
    (¬ (applyItemRewrite item_id quantity ps).quantity > 1 →
      alookup (setCustomParams item_id quantity ps) "Param13" = alookup ps "Param13") ∧
    ((applyItemRewrite item_id quantity ps).quantity > 1 →
      alookup (setCustomParams item_id quantity ps) "Param13" =
        some { type_ := "f", value := .num (applyItemRewrite item_id quantity ps).quantity }) ∧
    (alookup (setCustomParams item_id quantity ps) "Param1" =
      (alookup ps "Param1").map
        (fun p => { p with value := .str (applyItemRewrite item_id quantity ps).item_id })) ∧
    (alookup (setCustomParams item_id quantity ps) "Param2" =
      (alookup ps "Param2").map
        (fun p => { p with value := .num (applyItemRewrite item_id quantity ps).quantity })) := by
  refine ⟨?_, ?_, setCustomParams_lookup_Param1 _ _ _, setCustomParams_lookup_Param2 _ _ _⟩
  · intro hq
    rw [setCustomParams_lookup_Param13, if_neg hq]
  · intro hq
    rw [setCustomParams_lookup_Param13, if_pos hq]

/-- C1 (witness): the amended theorem at a generic item id with quantity 1
(not rewritten, so ≤ 1: Param13 stays absent) and the unconditional
parameter-1 assignment. -/
theorem C1_pickup_params_amended_witness :
    alookup (setCustomParams "ITEM_X" 1 sampleParams) "Param13" =
      alookup sampleParams "Param13" ∧
    alookup (setCustomParams "ITEM_X" 1 sampleParams) "Param1" =
      (alookup sampleParams "Param1").map
        (fun p => { p with value := .str (applyItemRewrite "ITEM_X" 1 sampleParams).item_id }) :=
  ⟨(C1_pickup_params_amended "ITEM_X" 1 sampleParams).1 (by decide),
   (C1_pickup_params_amended "ITEM_X" 1 sampleParams).2.2.1⟩

/-- C2: for a pickup-edit record with `item_id = "ITEM_ENERGY_TANKS"` and
`quantity = 2`, the patcher rewrites the item id to `"fMaxLife"`, multiplies
the quantity by 100 so that parameter 1 ends up `"fMaxLife"` and parameter 2
ends up `200.0`, and sets Param4/Param5/Param6 to the full/current-life
update mode (`"Full"` / `"fCurrentLife"` / `"LIFE"`). -/
theorem C2_energy_tanks_rewrite (ps : Params) (p1 p2 p4 p5 p6 : Param)
    (h1 : alookup ps "Param1" = some p1) (h2 : alookup ps "Param2" = some p2)
    (h4 : alookup ps "Param4" = some p4) (h5 : alookup ps "Param5" = some p5)
    (h6 : alookup ps "Param6" = some p6) :
    alookup (setCustomParams "ITEM_ENERGY_TANKS" 2 ps) "Param1" =
      some { p1 with value := .str "fMaxLife" } ∧
    alookup (setCustomParams "ITEM_ENERGY_TANKS" 2 ps) "Param2" =
      some { p2 with value := .num 200 } ∧
    alookup (setCustomParams "ITEM_ENERGY_TANKS" 2 ps) "Param4" =
      some { p4 with value := .str "Full" } ∧
    alookup (setCustomParams "ITEM_ENERGY_TANKS" 2 ps) "Param5" =
      some { p5 with value := .str "fCurrentLife" } ∧
    alookup (setCustomParams "ITEM_ENERGY_TANKS" 2 ps) "Param6" =
      some { p6 with value := .str "LIFE" } := by
  refine ⟨?_, ?_, ?_, ?_, ?_⟩
  · rw [setCustomParams_lookup_Param1, applyItemRewrite_energy, h1]
    rfl
  · rw [setCustomParams_lookup_Param2, applyItemRewrite_energy, h2]
    norm_num
  · rw [setCustomParams_lookup_notSpecial _ _ _ _ (by decide) (by decide) (by decide),
      applyItemRewrite_energy]
    simp only
    rw [alookup_setParamValue_ne _ _ _ _ (by decide),
      alookup_setParamValue_ne _ _ _ _ (by decide),
      alookup_setParamValue_eq, h4]
    rfl
  · rw [setCustomParams_lookup_notSpecial _ _ _ _ (by decide) (by decide) (by decide),
      applyItemRewrite_energy]
    simp only
    rw [alookup_setParamValue_ne _ _ _ _ (by decide),
      alookup_setParamValue_eq, alookup_setParamValue_ne _ _ _ _ (by decide), h5]
    rfl
  · rw [setCustomParams_lookup_notSpecial _ _ _ _ (by decide) (by decide) (by decide),
      applyItemRewrite_energy]
    simp only
    rw [alookup_setParamValue_eq, alookup_setParamValue_ne _ _ _ _ (by decide),
      alookup_setParamValue_ne _ _ _ _ (by decide), h6]
    rfl

/-- C2 (witness): the energy-tank rewrite evaluated on the sample parameter
dictionary. -/
theorem C2_energy_tanks_rewrite_witness :
    alookup (setCustomParams "ITEM_ENERGY_TANKS" 2 sampleParams) "Param1" =
      some { type_ := "s", value := .str "fMaxLife" } ∧
    alookup (setCustomParams "ITEM_ENERGY_TANKS" 2 sampleParams) "Param2" =
      some { type_ := "f", value := .num 200 } ∧
    alookup (setCustomParams "ITEM_ENERGY_TANKS" 2 sampleParams) "Param4" =
      some { type_ := "s", value := .str "Full" } ∧
    alookup (setCustomParams "ITEM_ENERGY_TANKS" 2 sampleParams) "Param5" =
      some { type_ := "s", value := .str "fCurrentLife" } ∧
    alookup (setCustomParams "ITEM_ENERGY_TANKS" 2 sampleParams) "Param6" =
      some { type_ := "s", value := .str "LIFE" } :=
  C2_energy_tanks_rewrite sampleParams ⟨"s", .str ""⟩ ⟨"f", .num 0⟩ ⟨"s", .str ""⟩
    ⟨"s", .str ""⟩ ⟨"s", .str ""⟩
    (by decide) (by decide) (by decide) (by decide) (by decide)

/-- C3: for `item_id = "ITEM_WEAPON_MISSILE_MAX"` (and likewise
`"ITEM_WEAPON_POWER_BOMB_MAX"`), parameter 1 keeps the original item id, the
update mode (Param4) is `"Custom"`, Param5 is the corresponding `_CURRENT`
counter field, and Param8 is the secondary-fire callback hook. -/
theorem C3_weapon_max_rewrite (q : ℚ) (ps : Params) (p1 p4 p5 p8 : Param)
    (h1 : alookup ps "Param1" = some p1) (h4 : alookup ps "Param4" = some p4)
    (h5 : alookup ps "Param5" = some p5) (h8 : alookup ps "Param8" = some p8) :
    (alookup (setCustomParams "ITEM_WEAPON_MISSILE_MAX" q ps) "Param1" =
       some { p1 with value := .str "ITEM_WEAPON_MISSILE_MAX" } ∧
     alookup (setCustomParams "ITEM_WEAPON_MISSILE_MAX" q ps) "Param4" =
       some { p4 with value := .str "Custom" } ∧
     alookup (setCustomParams "ITEM_WEAPON_MISSILE_MAX" q ps) "Param5" =
       some { p5 with value := .str "ITEM_WEAPON_MISSILE_CURRENT" } ∧
     alookup (setCustomParams "ITEM_WEAPON_MISSILE_MAX" q ps) "Param8" =
       some { p8 with value := .str "guicallbacks.OnSecondaryGunsFire" }) ∧
    (alookup (setCustomParams "ITEM_WEAPON_POWER_BOMB_MAX" q ps) "Param1" =
       some { p1 with value := .str "ITEM_WEAPON_POWER_BOMB_MAX" } ∧
     alookup (setCustomParams "ITEM_WEAPON_POWER_BOMB_MAX" q ps) "Param4" =
       some { p4 with value := .str "Custom" } ∧
     alookup (setCustomParams "ITEM_WEAPON_POWER_BOMB_MAX" q ps) "Param5" =
       some { p5 with value := .str "ITEM_WEAPON_POWER_BOMB_CURRENT" } ∧
     alookup (setCustomParams "ITEM_WEAPON_POWER_BOMB_MAX" q ps) "Param8" =
       some { p8 with value := .str "guicallbacks.OnSecondaryGunsFire" }) := by
  refine ⟨⟨?_, ?_, ?_, ?_⟩, ⟨?_, ?_, ?_, ?_⟩⟩
  · rw [setCustomParams_lookup_Param1, applyItemRewrite_missile, h1]
    rfl
  · rw [setCustomParams_lookup_notSpecial _ _ _ _ (by decide) (by decide) (by decide),
      applyItemRewrite_missile]
    simp only
    rw [alookup_setParamValue_ne _ _ _ _ (by decide),
      alookup_setParamValue_ne _ _ _ _ (by decide),
      alookup_setParamValue_eq, h4]
    rfl
  · rw [setCustomParams_lookup_notSpecial _ _ _ _ (by decide) (by decide) (by decide),
      applyItemRewrite_missile]
    simp only
    rw [alookup_setParamValue_ne _ _ _ _ (by decide),
      alookup_setParamValue_eq, alookup_setParamValue_ne _ _ _ _ (by decide), h5]
    rfl
  · rw [setCustomParams_lookup_notSpecial _ _ _ _ (by decide) (by decide) (by decide),
      applyItemRewrite_missile]
    simp only
    rw [alookup_setParamValue_eq, alookup_setParamValue_ne _ _ _ _ (by decide),
      alookup_setParamValue_ne _ _ _ _ (by decide), h8]
    rfl
  · rw [setCustomParams_lookup_Param1, applyItemRewrite_powerbomb, h1]
    rfl
  · rw [setCustomParams_lookup_notSpecial _ _ _ _ (by decide) (by decide) (by decide),
      applyItemRewrite_powerbomb]
    simp only
    rw [alookup_setParamValue_ne _ _ _ _ (by decide),
      alookup_setParamValue_ne _ _ _ _ (by decide),
      alookup_setParamValue_eq, h4]
    rfl
  · rw [setCustomParams_lookup_notSpecial _ _ _ _ (by decide) (by decide) (by decide),
      applyItemRewrite_powerbomb]
    simp only
    rw [alookup_setParamValue_ne _ _ _ _ (by decide),
      alookup_setParamValue_eq, alookup_setParamValue_ne _ _ _ _ (by decide), h5]
    rfl
  · rw [setCustomParams_lookup_notSpecial _ _ _ _ (by decide) (by decide) (by decide),
      applyItemRewrite_powerbomb]
    simp only
    rw [alookup_setParamValue_eq, alookup_setParamValue_ne _ _ _ _ (by decide),
      alookup_setParamValue_ne _ _ _ _ (by decide), h8]
    rfl

/-- C3 (witness): the weapon-max rewrite evaluated on the sample parameter
dictionary (missile case shown, power-bomb case included via the theorem). -/
theorem C3_weapon_max_rewrite_witness :
    alookup (setCustomParams "ITEM_WEAPON_MISSILE_MAX" 2 sampleParams) "Param5" =
      some { type_ := "s", value := .str "ITEM_WEAPON_MISSILE_CURRENT" } ∧
    alookup (setCustomParams "ITEM_WEAPON_POWER_BOMB_MAX" 2 sampleParams) "Param5" =
      some { type_ := "s", value := .str "ITEM_WEAPON_POWER_BOMB_CURRENT" } :=
  ⟨(C3_weapon_max_rewrite 2 sampleParams ⟨"s", .str ""⟩ ⟨"s", .str ""⟩ ⟨"s", .str ""⟩
      ⟨"s", .str ""⟩ (by decide) (by decide) (by decide) (by decide)).1.2.2.1,
   (C3_weapon_max_rewrite 2 sampleParams ⟨"s", .str ""⟩ ⟨"s", .str ""⟩ ⟨"s", .str ""⟩
      ⟨"s", .str ""⟩ (by decide) (by decide) (by decide) (by decide)).2.2.2.1⟩

/-!
Lemmas about the `str.replace` model.
-/

theorem pyReplaceAux_succ_cons (pat rep : List Char) (fuel : Nat) (c : Char)
    (rest : List Char) :
    pyReplaceAux pat rep (fuel + 1) (c :: rest) =
      if pat ≠ [] ∧ listStartsWith pat (c :: rest) = true then
        rep ++ pyReplaceAux pat rep fuel ((c :: rest).drop pat.length)
      else
        c :: pyReplaceAux pat rep fuel rest := rfl

theorem pyReplaceAux_fuel_irrel (pat rep : List Char) :
    ∀ (n : Nat) (s : List Char) (f1 f2 : Nat), s.length ≤ n → s.length ≤ f1 →
      s.length ≤ f2 → pyReplaceAux pat rep f1 s = pyReplaceAux pat rep f2 s := by
  intro n
  induction n with
  | zero =>
    intro s f1 f2 hn _ _
    have : s = [] := List.length_eq_zero.mp (Nat.le_zero.mp hn)
    subst this
    cases f1 <;> cases f2 <;> rfl
  | succ n ih =>
    intro s f1 f2 hn h1 h2
    cases s with
    | nil => cases f1 <;> cases f2 <;> rfl
    | cons c rest =>
      simp only [List.length_cons] at hn h1 h2
      cases f1 with
      | zero => omega
      | succ f1 =>
        cases f2 with
        | zero => omega
        | succ f2 =>
          rw [pyReplaceAux_succ_cons, pyReplaceAux_succ_cons]
          by_cases hc : pat ≠ [] ∧ listStartsWith pat (c :: rest) = true
          · rw [if_pos hc, if_pos hc]
            have hp : 0 < pat.length := List.length_pos.mpr hc.1
            have hd : ((c :: rest).drop pat.length).length ≤ n := by
              simp only [List.length_drop, List.length_cons]
              omega
            have hd1 : ((c :: rest).drop pat.length).length ≤ f1 := by
              simp only [List.length_drop, List.length_cons]
              omega
            have hd2 : ((c :: rest).drop pat.length).length ≤ f2 := by
              simp only [List.length_drop, List.length_cons]
              omega
            rw [ih _ f1 f2 hd hd1 hd2]
          · rw [if_neg hc, if_neg hc]
            rw [ih rest f1 f2 (by omega) (by omega) (by omega)]

theorem pyReplaceAux_eq_L (pat rep : List Char) (fuel : Nat) (s : List Char)
    (h : s.length ≤ fuel) : pyReplaceAux pat rep fuel s = pyReplaceL s pat rep :=
  pyReplaceAux_fuel_irrel pat rep s.length s fuel s.length le_rfl h le_rfl

theorem listStartsWith_append_self (p t : List Char) :
    listStartsWith p (p ++ t) = true := by
  induction p with
  | nil => rfl
  | cons q qs ih => simp [listStartsWith, ih]

theorem mem_of_getElem_some (l : List Char) (n : Nat) (x : Char)
    (h : l[n]? = some x) : x ∈ l := by
  obtain ⟨hn, rfl⟩ := List.getElem?_eq_some.mp h
  exact List.getElem_mem hn

theorem listStartsWith_getElem (p : List Char) :
    ∀ (s : List Char), listStartsWith p s = true →
      ∀ (m : Nat) (x : Char), p[m]? = some x → s[m]? = some x := by
  induction p with
  | nil =>
    intro s _ m x hm
    simp at hm
  | cons q qs ih =>
    intro s h m x hm
    cases s with
    | nil => simp [listStartsWith] at h
    | cons c cs =>
      simp only [listStartsWith, Bool.and_eq_true, decide_eq_true_eq] at h
      cases m with
      | zero =>
        simp only [List.getElem?_cons_zero, Option.some.injEq] at hm ⊢
        rw [← hm, h.1]
      | succ m =>
        simp only [List.getElem?_cons_succ] at hm ⊢
        exact ih cs h.2 m x hm

theorem mem_tailsOf_self (a : List Char) : a ∈ tailsOf a := by
  cases a <;> simp [tailsOf]

theorem mem_tailsOf_cons (t rest : List Char) (c : Char)
    (h : t ∈ tailsOf rest) : t ∈ tailsOf (c :: rest) := by
  simp [tailsOf, h]

theorem subset_of_mem_tailsOf (a : List Char) :
    ∀ t, t ∈ tailsOf a → ∀ c ∈ t, c ∈ a := by
  induction a with
  | nil =>
    intro t ht c hc
    simp [tailsOf] at ht
    subst ht
    simp at hc
  | cons x rest ih =>
    intro t ht c hc
    simp only [tailsOf, List.mem_cons] at ht
    rcases ht with rfl | ht
    · exact hc
    · exact List.mem_cons_of_mem x (ih t ht c hc)

theorem pyReplaceL_no_occurrence (pat rep : List Char) :
    ∀ (s : List Char), containsSub s pat = false → pyReplaceL s pat rep = s := by
  intro s
  induction s with
  | nil => intro _; rfl
  | cons c rest ih =>
    intro h
    simp only [containsSub, tailsOf, List.any_cons, Bool.or_eq_false_iff] at h
    have h1 : listStartsWith pat (c :: rest) = false := h.1
    have h2 : containsSub rest pat = false := by
      simp only [containsSub]
      exact h.2
    show pyReplaceAux pat rep (rest.length + 1) (c :: rest) = c :: rest
    rw [pyReplaceAux_succ_cons, if_neg (by simp [h1])]
    exact congrArg (c :: ·) (ih h2)

theorem pyReplaceL_split (pat rep b : List Char) (hpat : pat ≠ []) :
    ∀ (a : List Char),
      (∀ t, t ∈ tailsOf a → t ≠ [] → listStartsWith pat (t ++ (pat ++ b)) = false) →
      pyReplaceL (a ++ (pat ++ b)) pat rep = a ++ (rep ++ pyReplaceL b pat rep) := by
  intro a
  induction a with
  | nil =>
    intro _
    simp only [List.nil_append]
    cases pat with
    | nil => exact absurd rfl hpat
    | cons p0 pt =>
      show pyReplaceAux _ _ ((pt ++ b).length + 1) (p0 :: (pt ++ b)) = _
      rw [pyReplaceAux_succ_cons,
        if_pos ⟨hpat, listStartsWith_append_self (p0 :: pt) b⟩]
      have hd : (p0 :: (pt ++ b)).drop (p0 :: pt).length = b := List.drop_left (p0 :: pt) b
      rw [hd, pyReplaceAux_eq_L _ _ _ _ (by simp)]
  | cons x a' ih =>
    intro hno
    have hx : listStartsWith pat ((x :: a') ++ (pat ++ b)) = false :=
      hno (x :: a') (mem_tailsOf_self _) (by simp)
    show pyReplaceAux _ _ ((a' ++ (pat ++ b)).length + 1) (x :: (a' ++ (pat ++ b))) = _
    rw [pyReplaceAux_succ_cons, if_neg (by simp_all)]
    have := ih (fun t ht hne => hno t (mem_tailsOf_cons t a' x ht) hne)
    rw [pyReplaceAux_eq_L _ _ _ _ le_rfl]
    exact congrArg (x :: ·) this

theorem noMatchInside (pat : List Char) (n : Nat) (ch : Char)
    (hn : pat[n]? = some ch) (hbefore : ∀ j, j < n → pat[j]? ≠ some ch)
    (t b : List Char) (ht : t ≠ []) (hc : ch ∉ t) :
    listStartsWith pat (t ++ (pat ++ b)) = false := by
  by_contra h
  rw [Bool.not_eq_false] at h
  have hlt : n < pat.length := (List.getElem?_eq_some.mp hn).1
  have hw := listStartsWith_getElem pat _ h n ch hn
  by_cases hcase : n < t.length
  · rw [List.getElem?_append_left hcase] at hw
    exact hc (mem_of_getElem_some t n ch hw)
  · push_neg at hcase
    rw [List.getElem?_append_right hcase] at hw
    have h2 : n - t.length < pat.length := lt_of_le_of_lt (Nat.sub_le _ _) hlt
    rw [List.getElem?_append_left h2] at hw
    have h0 : 0 < t.length := List.length_pos.mpr ht
    exact hbefore (n - t.length) (by omega) hw

theorem pyStrReplace_no_occurrence (s pat rep : String)
    (h : containsSub s.data pat.data = false) : pyStrReplace s pat rep = s := by
  unfold pyStrReplace
  rw [pyReplaceL_no_occurrence _ _ _ h]

/-!
Claims C6 and C7: the script injector.
-/

theorem String_eq_of_data (a b : String) (h : a.data = b.data) : a = b := by
  cases a; cases b; simp_all

theorem paren_not_mem_joinLines :
    ∀ (l : List String), (∀ x ∈ l, '(' ∉ x.data) → '(' ∉ (joinLines l).data := by
  intro l
  induction l with
  | nil => intro _; simp [joinLines]
  | cons x xs ih =>
    intro h
    cases xs with
    | nil => simpa [joinLines] using h x (by simp)
    | cons y rest =>
      have hx := h x (by simp)
      have hrest := ih (fun z hz => h z (List.mem_cons_of_mem x hz))
      simp only [joinLines, String.data_append, List.mem_append, not_or]
      refine ⟨⟨hx, by decide⟩, hrest⟩

theorem paren_not_mem_inventory_text (inv : List (String × Int))
    (hinv : ∀ kv ∈ inv, '(' ∉ kv.1.data ∧ '(' ∉ (toString kv.2).data) :
    '(' ∉ (new_game_inventory_text inv).data := by
  apply paren_not_mem_joinLines
  intro x hx
  simp only [List.mem_map] at hx
  obtain ⟨kv, hkv, rfl⟩ := hx
  have h := hinv kv hkv
  simp only [String.data_append, List.mem_append, not_or]
  exact ⟨⟨⟨h.1, by decide⟩, h.2⟩, by decide⟩

theorem paren_not_mem_wrap (v : String) (h : '(' ∉ v.data) :
    '(' ∉ (wrap v).data := by
  simp only [wrap, String.data_append, List.mem_append, not_or]
  exact ⟨⟨by decide, h⟩, by decide⟩

theorem data_pyStrReplace (s pat rep : String) :
    (pyStrReplace s pat rep).data = pyReplaceL s.data pat.data rep.data := rfl

/-- One placeholder substitution on a string decomposed as
`a ++ (pat ++ b)` where `pat` is a placeholder token (`'('` at index 8,
nowhere earlier), `'('` does not occur in `a`, and `pat` does not occur in
`b`: exactly the placeholder occurrence is replaced. -/
theorem pyStrReplace_step (a rep2 b pat : List Char) (hpat : pat ≠ [])
    (hn : pat[8]? = some '(') (hb : ∀ j, j < 8 → pat[j]? ≠ some '(')
    (ha : '(' ∉ a) (hbno : containsSub b pat = false) :
    pyReplaceL (a ++ (pat ++ b)) pat rep2 = a ++ (rep2 ++ b) := by
  rw [pyReplaceL_split pat rep2 b hpat a ?hno, pyReplaceL_no_occurrence _ _ _ hbno]
  case hno =>
    intro t ht hne
    exact noMatchInside pat 8 '(' hn hb t b hne
      (fun hc => ha (subset_of_mem_tailsOf a t ht '(' hc))

/-- C6 (counterexample): the claim fails as stated — an inventory key that
itself contains a placeholder token is substituted by the later replacement
passes, so the output does not render the inventory as `key = value,` lines
with only the three template placeholders substituted. -/
theorem C6_counterexample :
    create_custom_init custom_init_template
        [("TEMPLATE(\"starting_scenario\")", 1)] { scenario := "S", actor := "A" } ≠
      create_custom_init_spec
        [("TEMPLATE(\"starting_scenario\")", 1)] { scenario := "S", actor := "A" } := by
  decide

/-- C6 (amended): for every inventory mapping and starting location whose
keys, rendered values and scenario text contain no `'('` character (in
particular, no placeholder token), the injector renders the inventory as one
`key = value,` line per item in enumeration order and substitutes the three
named placeholders, the scenario and actor values wrapped in double quotes —
i.e. it produces exactly the spec-side rendering.  (The injector is a pure
function, so determinism is by construction.) -/
theorem C6_injector_amended (inv : List (String × Int)) (loc : SceneActor)
    (hinv : ∀ kv ∈ inv, '(' ∉ kv.1.data ∧ '(' ∉ (toString kv.2).data)
    (hscn : '(' ∉ loc.scenario.data) :
    create_custom_init custom_init_template inv loc = create_custom_init_spec inv loc := by
  have hr1 : '(' ∉ (new_game_inventory_text inv).data :=
    paren_not_mem_inventory_text inv hinv
  have hr2 : '(' ∉ (wrap loc.scenario).data := paren_not_mem_wrap _ hscn
  apply String_eq_of_data
  show (pyStrReplace (pyStrReplace (pyStrReplace custom_init_template
      (placeholderPat "new_game_inventory") (new_game_inventory_text inv))
      (placeholderPat "starting_scenario") (wrap loc.scenario))
      (placeholderPat "starting_actor") (wrap loc.actor)).data
    = (create_custom_init_spec inv loc).data
  have hT1 : '(' ∉ c6T1.data := by decide
  have hT2 : '(' ∉ c6T2.data := by decide
  have hT3 : '(' ∉ c6T3.data := by decide
  have hdec : custom_init_template.data =
      c6T1.data ++ ((placeholderPat "new_game_inventory").data ++
        (c6T2.data ++ ((placeholderPat "starting_scenario").data ++
          (c6T3.data ++ ((placeholderPat "starting_actor").data ++ c6T4.data))))) := by
    decide
  have e1 : (pyStrReplace custom_init_template
      (placeholderPat "new_game_inventory") (new_game_inventory_text inv)).data =
      c6T1.data ++ ((new_game_inventory_text inv).data ++
        (c6T2.data ++ ((placeholderPat "starting_scenario").data ++
          (c6T3.data ++ ((placeholderPat "starting_actor").data ++ c6T4.data))))) := by
    rw [data_pyStrReplace, hdec]
    exact pyStrReplace_step _ _ _ _ (by decide) (by decide) (by decide) hT1 (by decide)
  have e2 : (pyStrReplace (pyStrReplace custom_init_template
      (placeholderPat "new_game_inventory") (new_game_inventory_text inv))
      (placeholderPat "starting_scenario") (wrap loc.scenario)).data =
      (c6T1.data ++ ((new_game_inventory_text inv).data ++ c6T2.data)) ++
        ((wrap loc.scenario).data ++
          (c6T3.data ++ ((placeholderPat "starting_actor").data ++ c6T4.data))) := by
    rw [data_pyStrReplace, e1]
    have hgroup : c6T1.data ++ ((new_game_inventory_text inv).data ++
        (c6T2.data ++ ((placeholderPat "starting_scenario").data ++
          (c6T3.data ++ ((placeholderPat "starting_actor").data ++ c6T4.data))))) =
        (c6T1.data ++ ((new_game_inventory_text inv).data ++ c6T2.data)) ++
          ((placeholderPat "starting_scenario").data ++
            (c6T3.data ++ ((placeholderPat "starting_actor").data ++ c6T4.data))) := by
      simp [List.append_assoc]
    rw [hgroup]
    refine pyStrReplace_step _ _ _ _ (by decide) (by decide) (by decide) ?_ (by decide)
    simp only [List.mem_append, not_or]
    exact ⟨hT1, hr1, hT2⟩
  have e3 : (pyStrReplace (pyStrReplace (pyStrReplace custom_init_template
      (placeholderPat "new_game_inventory") (new_game_inventory_text inv))
      (placeholderPat "starting_scenario") (wrap loc.scenario))
      (placeholderPat "starting_actor") (wrap loc.actor)).data =
      ((c6T1.data ++ ((new_game_inventory_text inv).data ++ c6T2.data)) ++
        ((wrap loc.scenario).data ++ c6T3.data)) ++
        ((wrap loc.actor).data ++ c6T4.data) := by
    rw [data_pyStrReplace, e2]
    have hgroup : (c6T1.data ++ ((new_game_inventory_text inv).data ++ c6T2.data)) ++
        ((wrap loc.scenario).data ++
          (c6T3.data ++ ((placeholderPat "starting_actor").data ++ c6T4.data))) =
        ((c6T1.data ++ ((new_game_inventory_text inv).data ++ c6T2.data)) ++
          ((wrap loc.scenario).data ++ c6T3.data)) ++
          ((placeholderPat "starting_actor").data ++ c6T4.data) := by
      simp [List.append_assoc]
    rw [hgroup]
    refine pyStrReplace_step _ _ _ _ (by decide) (by decide) (by decide) ?_ (by decide)
    simp only [List.mem_append, not_or]
    exact ⟨⟨hT1, hr1, hT2⟩, hr2, hT3⟩
  rw [e3]
  simp [create_custom_init_spec, new_game_inventory_text, wrap, String.data_append,
    List.append_assoc]

/-- C6 (witness): the amended equality evaluated at a concrete inventory and
starting location (paren-free, as configurations are in practice). -/
theorem C6_injector_amended_witness :
    create_custom_init custom_init_template
        [("ITEM_MAX_LIFE", 2), ("ITEM_WEAPON_MISSILE_MAX", 15)]
        { scenario := "s010_cave", actor := "StartPoint0" } =
      create_custom_init_spec
        [("ITEM_MAX_LIFE", 2), ("ITEM_WEAPON_MISSILE_MAX", 15)]
        { scenario := "s010_cave", actor := "StartPoint0" } :=
  C6_injector_amended _ _ (by decide) (by decide)

/-- C7 (counterexample): the claim "a missing placeholder is a fatal
integrity error" is false on the code — `str.replace` with no occurrence is a
silent no-op, so the injector succeeds and returns the template text
unchanged when every placeholder is absent. -/
theorem C7_counterexample :
    create_custom_init "local x = 1\n" [("ITEM_ADEM", 2)]
      { scenario := "S", actor := "A" } = "local x = 1\n" := by
  decide

/-- C7 (amended): a named placeholder that is missing from the template is
silently left unsubstituted — when none of the three placeholder tokens occur
in the template, the injector returns the template unchanged; the replacement
loop itself has no failure mode. -/
theorem C7_missing_placeholder_amended (template : String)
    (inv : List (String × Int)) (loc : SceneActor)
    (h1 : containsSub template.data (placeholderPat "new_game_inventory").data = false)
    (h2 : containsSub template.data (placeholderPat "starting_scenario").data = false)
    (h3 : containsSub template.data (placeholderPat "starting_actor").data = false) :
    create_custom_init template inv loc = template := by
  simp only [create_custom_init, List.foldl_cons, List.foldl_nil]
  rw [pyStrReplace_no_occurrence _ _ _ h1, pyStrReplace_no_occurrence _ _ _ h2,
    pyStrReplace_no_occurrence _ _ _ h3]

/-- C7 (witness): the amended no-op behavior on a concrete template with no
placeholders. -/
theorem C7_missing_placeholder_amended_witness :
    create_custom_init "Game.LogMsg = 7\n" [("ITEM_SPIDER_MAGNET", 1)]
      { scenario := "s020_magma", actor := "SP1" } = "Game.LogMsg = 7\n" :=
  C7_missing_placeholder_amended _ _ _ (by decide) (by decide) (by decide)

/-!
Claim C8: the init-script backup is idempotent.
-/

/-- C8: creating the unmodified-reference copy of the initialization script is
idempotent: when the backup does not yet exist it is created from the live
`init.lc` (registered into `init.lc`'s packages), when it already exists the
editor is returned untouched, and re-running on any successful result is a
no-op. -/
theorem C8_init_copy_idempotent :
    (∀ (s : Editor) (a : Asset),
      does_asset_exists s "system/scripts/original_init.lc" = false →
      get_raw_asset s "system/scripts/init.lc" = some a →
      create_init_copy s = .ok (add_new_asset s "system/scripts/original_init.lc" a
        ((find_pkgs s "system/scripts/init.lc").toFinset))) ∧
    (∀ s : Editor, does_asset_exists s "system/scripts/original_init.lc" = true →
      create_init_copy s = .ok s) ∧
    (∀ (s s' : Editor), create_init_copy s = .ok s' → create_init_copy s' = .ok s') := by
  refine ⟨?_, ?_, ?_⟩
  · intro s a h0 h1
    unfold create_init_copy
    rw [if_neg (by simp [h0]), h1]
  · intro s h
    unfold create_init_copy
    rw [if_pos (by simp [h])]
  · intro s s' h
    unfold create_init_copy at h ⊢
    by_cases hex : does_asset_exists s "system/scripts/original_init.lc" = true
    · rw [if_pos (by simp [hex])] at h
      cases h
      rw [if_pos (by simp [hex])]
    · rw [if_neg (by simp_all)] at h
      cases hg : get_raw_asset s "system/scripts/init.lc" with
      | none => rw [hg] at h; cases h
      | some a =>
        rw [hg] at h
        cases h
        have hex' : does_asset_exists (add_new_asset s "system/scripts/original_init.lc" a
            ((find_pkgs s "system/scripts/init.lc").toFinset))
            "system/scripts/original_init.lc" = true := by
          simp only [does_asset_exists, add_new_asset, alookup_append]
          cases halo : alookup s.assets "system/scripts/original_init.lc" with
          | none => simp [alookup]
          | some x => simp
        rw [if_pos (by simp [hex'])]

/-- C8 (witness): the backup behavior on the fixture tree — created on the
first run, untouched on the second. -/
theorem C8_init_copy_idempotent_witness :
    create_init_copy sampleEditor =
      .ok (add_new_asset sampleEditor "system/scripts/original_init.lc" (.raw "-- init")
        ((find_pkgs sampleEditor "system/scripts/init.lc").toFinset)) ∧
    create_init_copy (add_new_asset sampleEditor "system/scripts/original_init.lc"
        (.raw "-- init") ((find_pkgs sampleEditor "system/scripts/init.lc").toFinset)) =
      .ok (add_new_asset sampleEditor "system/scripts/original_init.lc" (.raw "-- init")
        ((find_pkgs sampleEditor "system/scripts/init.lc").toFinset)) := by
  have h1 := C8_init_copy_idempotent.1 sampleEditor (.raw "-- init")
    (by decide) (by decide)
  exact ⟨h1, C8_init_copy_idempotent.2.2 _ _ h1⟩

/-!
Claim C5: the resource cache contract.
-/

theorem get_file_idem (s : Editor) (p : String) (r : Brfld) (s' : Editor)
    (h : get_file s p = some (r, s')) : get_file s' p = some (r, s') := by
  unfold get_file at h ⊢
  cases hm : alookup s.memory_files p with
  | some r0 =>
    rw [hm] at h
    simp only [Option.some.injEq, Prod.mk.injEq] at h
    obtain ⟨rfl, rfl⟩ := h
    rw [hm]
  | none =>
    rw [hm] at h
    cases hp : get_parsed_asset s p with
    | none => rw [hp] at h; cases h
    | some r0 =>
      rw [hp] at h
      simp only [Option.some.injEq, Prod.mk.injEq] at h
      obtain ⟨h1, h2⟩ := h
      subst h1
      subst h2
      have hm' : alookup ((s.memory_files ++ [(p, r0)] : List (String × Brfld))) p
          = some r0 := by
        rw [alookup_append, hm]
        simp [alookup]
      simp only [hm']

theorem get_file_inv (s : Editor) (p : String) (r : Brfld) (s' : Editor)
    (hnd : s.parsedLog.Nodup)
    (hiff : ∀ q, q ∈ s.parsedLog ↔ (alookup s.memory_files q).isSome = true)
    (h : get_file s p = some (r, s')) :
    s'.parsedLog.Nodup ∧
      ∀ q, q ∈ s'.parsedLog ↔ (alookup s'.memory_files q).isSome = true := by
  unfold get_file at h
  cases hm : alookup s.memory_files p with
  | some r0 =>
    rw [hm] at h
    simp only [Option.some.injEq, Prod.mk.injEq] at h
    obtain ⟨rfl, rfl⟩ := h
    exact ⟨hnd, hiff⟩
  | none =>
    rw [hm] at h
    cases hp : get_parsed_asset s p with
    | none => rw [hp] at h; cases h
    | some r0 =>
      rw [hp] at h
      simp only [Option.some.injEq, Prod.mk.injEq] at h
      obtain ⟨h1, h2⟩ := h
      subst h1
      subst h2
      have hnotin : p ∉ s.parsedLog := by
        intro hmem
        have := (hiff p).mp hmem
        rw [hm] at this
        cases this
      constructor
      · simp only [List.nodup_append]
        refine ⟨hnd, List.nodup_singleton p, ?_⟩
        intro x hx hx2
        simp only [List.mem_singleton] at hx2
        subst hx2
        exact hnotin hx
      · intro q
        by_cases hq : q = p
        · subst hq
          simp only [List.mem_append, List.mem_singleton, or_true, true_iff]
          rw [alookup_append, hm]
          simp [alookup]
        · simp only [List.mem_append, List.mem_singleton, hq, or_false]
          rw [alookup_append]
          have hone : alookup ([(p, r0)] : List (String × Brfld)) q = none := by
            simp [alookup, Ne.symm hq]
          rw [hone]
          cases halo : alookup s.memory_files q with
          | none =>
            have := hiff q
            rw [halo] at this
            simp [this]
          | some x =>
            have := hiff q
            rw [halo] at this
            simp [this]

theorem runGets_inv (ops : List String) :
    ∀ (s : Editor), s.parsedLog.Nodup →
      (∀ q, q ∈ s.parsedLog ↔ (alookup s.memory_files q).isSome = true) →
      (runGets s ops).parsedLog.Nodup := by
  induction ops with
  | nil => intro s hnd _; exact hnd
  | cons p rest ih =>
    intro s hnd hiff
    show (runGets s (p :: rest)).parsedLog.Nodup
    unfold runGets
    cases hg : get_file s p with
    | none => exact ih s hnd hiff
    | some v =>
      obtain ⟨r, s'⟩ := v
      obtain ⟨hnd', hiff'⟩ := get_file_inv s p r s' hnd hiff hg
      exact ih s' hnd' hiff'

theorem writeBack_not_key :
    ∀ (mem : List (String × Brfld)) (assets : List (String × Asset)) (p : String),
      p ∉ mem.map Prod.fst → alookup (writeBack mem assets) p = alookup assets p := by
  intro mem
  induction mem with
  | nil => intro assets p _; rfl
  | cons hd rest ih =>
    obtain ⟨p0, b0⟩ := hd
    intro assets p hp
    simp only [List.map_cons, List.mem_cons, not_or] at hp
    show alookup (writeBack rest (aupsert assets p0 (.scenario b0))) p = _
    rw [ih _ p hp.2, alookup_aupsert_ne _ _ _ _ hp.1]

theorem writeBack_alookup :
    ∀ (mem : List (String × Brfld)) (assets : List (String × Asset)) (p : String)
      (r : Brfld), (mem.map Prod.fst).Nodup → alookup mem p = some r →
      alookup (writeBack mem assets) p = some (.scenario r) := by
  intro mem
  induction mem with
  | nil => intro assets p r _ h; cases h
  | cons hd rest ih =>
    obtain ⟨p0, b0⟩ := hd
    intro assets p r hnd h
    simp only [List.map_cons, List.nodup_cons] at hnd
    by_cases hp : p0 = p
    · subst hp
      have hrb : b0 = r := by
        simpa [alookup] using h
      subst hrb
      show alookup (writeBack rest (aupsert assets p0 (.scenario b0))) p0 = some (.scenario b0)
      rw [writeBack_not_key rest _ p0 hnd.1, alookup_aupsert_eq]
    · have h2 : alookup rest p = some r := by
        simpa [alookup, hp] using h
      exact ih _ p r hnd.2 h2

/-- C5: the resource-cache contract — (i) a second read of the same path
returns the same parsed instance with no state change; (ii) starting from an
empty cache, any sequence of reads asks the repository to parse each path at
most once; (iii) commit clears the cache; and (iv) commit writes every cached
instance back to the repository under its path. -/
theorem C5_resource_cache_contract :
    (∀ (s : Editor) (p : String) (r : Brfld) (s' : Editor),
      get_file s p = some (r, s') → get_file s' p = some (r, s')) ∧
    (∀ (s : Editor) (ops : List String) (p : String),
      s.memory_files = [] → s.parsedLog = [] →
      (runGets s ops).parsedLog.count p ≤ 1) ∧
    (∀ s : Editor, (flush_modified_assets s).memory_files = []) ∧
    (∀ (s : Editor) (p : String) (r : Brfld),
      (s.memory_files.map Prod.fst).Nodup →
      alookup s.memory_files p = some r →
      alookup (flush_modified_assets s).assets p = some (.scenario r)) := by
  refine ⟨get_file_idem, ?_, fun s => rfl, ?_⟩
  · intro s ops p hmf hpl
    have hnd : (runGets s ops).parsedLog.Nodup := by
      apply runGets_inv ops s (by rw [hpl]; exact List.nodup_nil)
      intro q
      rw [hpl, hmf]
      simp [alookup]
    exact List.nodup_iff_count_le_one.mp hnd p
  · intro s p r hnd h
    exact writeBack_alookup s.memory_files s.assets p r hnd h

/-- C5 (witness): the cache contract on the fixture tree — the same scenario
read twice yields the same instance and the same state, a double read parses
once, and commit empties the cache and writes the cached scenario back. -/
theorem C5_resource_cache_contract_witness :
    get_file sampleEditorCached (path_for_level "s1" ++ ".brfld") =
      some (sampleBrfld, sampleEditorCached) ∧
    (runGets sampleEditor [path_for_level "s1" ++ ".brfld",
      path_for_level "s1" ++ ".brfld"]).parsedLog.count
      (path_for_level "s1" ++ ".brfld") ≤ 1 ∧
    (flush_modified_assets sampleEditorCached).memory_files = [] ∧
    alookup (flush_modified_assets sampleEditorCached).assets
      (path_for_level "s1" ++ ".brfld") = some (.scenario sampleBrfld) := by
  refine ⟨C5_resource_cache_contract.1 sampleEditor _ sampleBrfld sampleEditorCached
      (by decide),
    C5_resource_cache_contract.2.1 sampleEditor _ _ (by decide) (by decide),
    C5_resource_cache_contract.2.2.1 sampleEditorCached,
    C5_resource_cache_contract.2.2.2 sampleEditorCached _ sampleBrfld
      (by decide) (by decide)⟩

/-!
Claim C4: the warp patcher.
-/

theorem get_parsed_asset_some (s : Editor) (p : String) (r : Brfld)
    (h : get_parsed_asset s p = some r) : alookup s.assets p = some (.scenario r) := by
  unfold get_parsed_asset at h
  cases ha : alookup s.assets p with
  | none => rw [ha] at h; cases h
  | some a =>
    rw [ha] at h
    cases a with
    | scenario b => cases h; rfl
    | raw c => cases h
    | bmsad t => cases h
    | lua => cases h

theorem get_file_effView (s : Editor) (p : String) (r : Brfld) (s' : Editor)
    (h : get_file s p = some (r, s')) :
    s'.assets = s.assets ∧ ∀ q, effView s' q = effView s q := by
  unfold get_file at h
  cases hm : alookup s.memory_files p with
  | some r0 =>
    rw [hm] at h
    simp only [Option.some.injEq, Prod.mk.injEq] at h
    obtain ⟨h1, h2⟩ := h
    subst h2
    exact ⟨rfl, fun q => rfl⟩
  | none =>
    rw [hm] at h
    cases hp : get_parsed_asset s p with
    | none => rw [hp] at h; cases h
    | some r0 =>
      rw [hp] at h
      simp only [Option.some.injEq, Prod.mk.injEq] at h
      obtain ⟨h1, h2⟩ := h
      subst h1
      subst h2
      refine ⟨rfl, fun q => ?_⟩
      by_cases hq : q = p
      · subst hq
        have hm' : alookup ((s.memory_files ++ [(q, r0)] : List (String × Brfld))) q
            = some r0 := by
          rw [alookup_append, hm]
          simp [alookup]
        simp only [effView, hm', hm]
        exact (get_parsed_asset_some s q r0 hp).symm
      · have hm' : alookup ((s.memory_files ++ [(p, r0)] : List (String × Brfld))) q
            = alookup s.memory_files q := by
          rw [alookup_append]
          have hone : alookup ([(p, r0)] : List (String × Brfld)) q = none := by
            simp [alookup, Ne.symm hq]
          rw [hone]
          cases alookup s.memory_files q <;> rfl
        simp only [effView, hm']

/-- C4: for every warp-edit record whose source actor resolves but lacks the
`USABLE` (teleporter) component, the warp patcher raises the error whose
message names the offending actor reference and says it is not a teleporter,
and the failed edit leaves the repository assets untouched and the effective
content of every path unchanged (the cache may hold the freshly parsed,
unmodified scenario); when the component is present, the edit only overwrites
the component's destination-scenario and destination-spawn-point fields
(everything else about the actor, scene, and editor is preserved by the
`updateCachedActor` update shown). -/
theorem C4_elevator_teleporter_check (s : Editor) (e : ElevatorConfig)
    (level : Brfld) (s1 : Editor)
    (hget : get_file s (path_for_level e.teleporter.scenario ++ ".brfld") = some (level, s1))
    (actors : List (String × Actor))
    (hlayer : actors_for_layer level e.teleporter.layer = some actors)
    (actor : Actor) (hactor : alookup actors e.teleporter.actor = some actor) :
    (actor.usable = none →
      patch_one_elevator s e =
        .error (.valueError ("Actor " ++ actorRefStr e.teleporter ++
          " is not a teleporter"), s1) ∧
      s1.assets = s.assets ∧ (∀ p, effView s1 p = effView s p)) ∧
    (∀ u : Usable, actor.usable = some u →
      patch_one_elevator s e =
        .ok (updateCachedActor s1 (path_for_level e.teleporter.scenario ++ ".brfld")
          e.teleporter.layer e.teleporter.actor
          (fun a => { a with usable := some ({ u with
            sScenarioName := e.destination.scenario,
            sTargetSpawnPoint := e.destination.actor }) }))) := by
  constructor
  · intro hu
    obtain ⟨hassets, hview⟩ := get_file_effView s _ level s1 hget
    refine ⟨?_, hassets, hview⟩
    simp only [patch_one_elevator, hget, hlayer, hactor, hu]
  · intro u hu
    simp only [patch_one_elevator, hget, hlayer, hactor, hu]

/-- C4 (witness): on the fixture tree, the warp edit aimed at the
non-teleporter actor fails with the named error while changing no effective
content, and the edit aimed at the teleporter actor rewrites exactly the two
destination fields. -/
theorem C4_elevator_teleporter_check_witness :
    (patch_one_elevator sampleEditor elevBadConfig =
      .error (.valueError ("Actor " ++ actorRefStr elevBadConfig.teleporter ++
        " is not a teleporter"), sampleEditorCached) ∧
      effView sampleEditorCached (path_for_level "s1" ++ ".brfld") =
        effView sampleEditor (path_for_level "s1" ++ ".brfld")) ∧
    patch_one_elevator sampleEditor elevOkConfig =
      .ok (updateCachedActor sampleEditorCached (path_for_level "s1" ++ ".brfld")
        "default" "elev"
        (fun a => { a with usable := some ⟨"s2", "spawn", "u_rest"⟩ })) := by
  have hbad := (C4_elevator_teleporter_check sampleEditor elevBadConfig sampleBrfld
    sampleEditorCached (by decide) [("elev", teleActor), ("item", plainActor)]
    (by decide) plainActor (by decide)).1 rfl
  have hok := (C4_elevator_teleporter_check sampleEditor elevOkConfig sampleBrfld
    sampleEditorCached (by decide) [("elev", teleActor), ("item", plainActor)]
    (by decide) teleActor (by decide)).2
    { sScenarioName := "s_old", sTargetSpawnPoint := "a_old", rest := "u_rest" } rfl
  exact ⟨⟨hbad.1, hbad.2.2 _⟩, hok⟩

/-!
Claim C9: the pickup patcher's insertions.
-/

theorem get_file_same_logs (s : Editor) (p : String) (r : Brfld) (s' : Editor)
    (h : get_file s p = some (r, s')) :
    s'.addedLog = s.addedLog ∧ s'.pkgMap = s.pkgMap := by
  unfold get_file at h
  cases hm : alookup s.memory_files p with
  | some r0 =>
    rw [hm] at h
    simp only [Option.some.injEq, Prod.mk.injEq] at h
    obtain ⟨h1, h2⟩ := h
    subst h2
    exact ⟨rfl, rfl⟩
  | none =>
    rw [hm] at h
    cases hp : get_parsed_asset s p with
    | none => rw [hp] at h; cases h
    | some r0 =>
      rw [hp] at h
      simp only [Option.some.injEq, Prod.mk.injEq] at h
      obtain ⟨h1, h2⟩ := h
      subst h2
      exact ⟨rfl, rfl⟩

theorem pkgsForLevel_congr (s s2 : Editor) (p : PickupConfig)
    (h : s2.pkgMap = s.pkgMap) : pkgsForLevel s2 p = pkgsForLevel s p := by
  unfold pkgsForLevel find_pkgs
  rw [h]

theorem patch_one_pickup_ok (tmpl : BmsadTemplate) (s : Editor) (acc : Finset String)
    (i : Nat) (p : PickupConfig) (s1 : Editor) (acc1 : Finset String)
    (h : patch_one_pickup tmpl s acc i p = .ok (s1, acc1)) :
    s1.addedLog = s.addedLog ++
      [(bmsadPath i, Asset.bmsad (pickupTemplate tmpl i p), pkgsForLevel s p)] ∧
    acc1 = acc ∪ pkgsForLevel s p ∧
    s1.pkgMap = s.pkgMap := by
  simp only [patch_one_pickup] at h
  cases hg : get_file s (path_for_level p.pickup_actor.scenario ++ ".brfld") with
  | none => simp only [hg] at h; cases h
  | some v =>
    obtain ⟨level, s1'⟩ := v
    simp only [hg] at h
    obtain ⟨hlog, hmap⟩ := get_file_same_logs s _ level s1' hg
    cases hl : actors_for_layer level p.pickup_actor.layer with
    | none => simp only [hl] at h; cases h
    | some actors =>
      simp only [hl] at h
      cases ha : alookup actors p.pickup_actor.actor with
      | none => simp only [ha] at h; cases h
      | some actor =>
        simp only [ha] at h
        simp only [Except.ok.injEq, Prod.mk.injEq] at h
        obtain ⟨h1, h2⟩ := h
        subst h1
        subst h2
        refine ⟨?_, rfl, ?_⟩
        · simp only [ensure_pickup_deps, updateCachedActor, add_new_asset, hlog]
        · simp only [ensure_pickup_deps, updateCachedActor, add_new_asset, hmap]

theorem patch_pickups_go_ok (tmpl : BmsadTemplate) :
    ∀ (pickups : List PickupConfig) (s : Editor) (acc : Finset String) (i : Nat)
      (s' : Editor) (acc' : Finset String),
      patch_pickups_go tmpl s acc i pickups = .ok (s', acc') →
      s'.addedLog = s.addedLog ++
        (List.enumFrom i pickups).map
          (fun ip => (bmsadPath ip.1, Asset.bmsad (pickupTemplate tmpl ip.1 ip.2),
            pkgsForLevel s ip.2)) ∧
      acc' = pickups.foldl (fun a p2 => a ∪ pkgsForLevel s p2) acc ∧
      s'.pkgMap = s.pkgMap := by
  intro pickups
  induction pickups with
  | nil =>
    intro s acc i s' acc' h
    simp only [patch_pickups_go, Except.ok.injEq, Prod.mk.injEq] at h
    obtain ⟨h1, h2⟩ := h
    subst h1
    subst h2
    simp [List.enumFrom]
  | cons p rest ih =>
    intro s acc i s' acc' h
    simp only [patch_pickups_go] at h
    cases h1 : patch_one_pickup tmpl s acc i p with
    | error err => simp only [h1] at h; cases h
    | ok v =>
      obtain ⟨s1, acc1⟩ := v
      simp only [h1] at h
      obtain ⟨hlog1, hacc1, hmap1⟩ := patch_one_pickup_ok tmpl s acc i p s1 acc1 h1
      obtain ⟨hlog2, hacc2, hmap2⟩ := ih s1 acc1 (i + 1) s' acc' h
      have hpk : ∀ p2 : PickupConfig, pkgsForLevel s1 p2 = pkgsForLevel s p2 :=
        fun p2 => pkgsForLevel_congr s s1 p2 hmap1
      have hfun : (fun ip : Nat × PickupConfig =>
          (bmsadPath ip.1, Asset.bmsad (pickupTemplate tmpl ip.1 ip.2),
            pkgsForLevel s1 ip.2)) =
          (fun ip : Nat × PickupConfig =>
          (bmsadPath ip.1, Asset.bmsad (pickupTemplate tmpl ip.1 ip.2),
            pkgsForLevel s ip.2)) :=
        funext fun ip => by rw [hpk ip.2]
      have hfun2 : (fun (a : Finset String) (p2 : PickupConfig) =>
          a ∪ pkgsForLevel s1 p2) =
          (fun (a : Finset String) (p2 : PickupConfig) => a ∪ pkgsForLevel s p2) :=
        funext fun a => funext fun p2 => by rw [hpk p2]
      refine ⟨?_, ?_, by rw [hmap2, hmap1]⟩
      · rw [hlog2, hfun, hlog1]
        simp [List.enumFrom, List.append_assoc]
      · rw [hacc2, hfun2, hacc1]
        simp [List.foldl_cons]

theorem bmsadPath_ne_luaPath (j : Nat) : bmsadPath j ≠ luaPath := by
  intro h
  have hd : (bmsadPath j).data = luaPath.data := by rw [h]
  have hpre : ("actors/items/randomizer_powerup/charclasses/" : String).data.length = 44 := by
    decide
  have h1 : (bmsadPath j).data[32]? = some 'c' := by
    unfold bmsadPath
    rw [String.data_append, String.data_append]
    rw [List.getElem?_append_left (by rw [List.length_append, hpre]; omega),
      List.getElem?_append_left (by rw [hpre]; omega)]
    decide
  have h2 : luaPath.data[32]? = some 's' := by decide
  rw [hd, h2] at h1
  cases h1

/-- C9: on a successful pickup-patching run, the insertion log grows by
exactly one synthesized actor-definition per pickup — the `i`-th targeted at
that pickup's own scene's container groups — followed by a single insertion
of the shared behavior script targeted at the union of the container groups
of every pickup's scene accumulated across the whole run (inserted once at
the end, not once per pickup; its path differs from every actor-definition
path). -/
theorem C9_shared_script_insertion (tmpl : BmsadTemplate) (s : Editor)
    (pickups : List PickupConfig) (s' : Editor)
    (h : patch_pickups tmpl s pickups = .ok s') :
    (s'.addedLog = s.addedLog ++
      ((List.enumFrom 0 pickups).map
        (fun ip => (bmsadPath ip.1, Asset.bmsad (pickupTemplate tmpl ip.1 ip.2),
          pkgsForLevel s ip.2)) ++
      [(luaPath, Asset.lua,
        pickups.foldl (fun a p2 => a ∪ pkgsForLevel s p2) ∅)])) ∧
    (∀ j : Nat, bmsadPath j ≠ luaPath) := by
  refine ⟨?_, bmsadPath_ne_luaPath⟩
  unfold patch_pickups at h
  cases hg : patch_pickups_go tmpl s ∅ 0 pickups with
  | error err => simp only [hg] at h; cases h
  | ok v =>
    obtain ⟨s1, pkgs⟩ := v
    simp only [hg] at h
    obtain ⟨hlog, hacc, hmap⟩ := patch_pickups_go_ok tmpl pickups s ∅ 0 s1 pkgs hg
    simp only [Except.ok.injEq] at h
    subst h
    simp only [add_new_asset, hlog, hacc, List.append_assoc]

/-- C9 (witness): the insertion log of a concrete two-pickup run (both
pickups in the same scenario, so the script's target set is that scenario's
groups, accumulated once). -/
theorem C9_shared_script_insertion_witness :
    patch_pickups sampleTemplate sampleEditor [pickupConfig1, pickupConfig2] =
      .ok pickupsRunResult ∧
    pickupsRunResult.addedLog = sampleEditor.addedLog ++
      ((List.enumFrom 0 [pickupConfig1, pickupConfig2]).map
        (fun ip => (bmsadPath ip.1,
          Asset.bmsad (pickupTemplate sampleTemplate ip.1 ip.2),
          pkgsForLevel sampleEditor ip.2)) ++
      [(luaPath, Asset.lua,
        [pickupConfig1, pickupConfig2].foldl
          (fun a p2 => a ∪ pkgsForLevel sampleEditor p2) ∅)]) := by
  have h : patch_pickups sampleTemplate sampleEditor [pickupConfig1, pickupConfig2] =
      .ok pickupsRunResult := rfl
  exact ⟨h, (C9_shared_script_insertion sampleTemplate sampleEditor _ _ h).1⟩

/-!
Claim C10: the orchestrator deletes the output's romfs subdirectory
unconditionally.
-/

/-- C10: the top-level patch operation runs `shutil.rmtree` on the output's
`romfs` subdirectory unconditionally; on every invocation where that
subdirectory does not already exist but all in-memory stages succeed, the
deletion raises `FileNotFoundError` after the edits and the cache commit have
completed (the error state is the post-commit editor, whose cache is empty),
the filesystem is returned unchanged, and the export is never reached. -/
theorem C10_rmtree_unconditional (init_template : String) (tmpl : BmsadTemplate)
    (cfg : Configuration) (s0 s5 : Editor) (fs : Fs) (output_path : String)
    (hstages : stages_before_export init_template tmpl cfg s0 = .ok s5)
    (hmissing : (output_path ++ "/romfs") ∉ fs.dirs) :
    patch init_template tmpl true cfg s0 fs output_path =
      .error (.fileNotFound (output_path ++ "/romfs"), s5, fs) ∧
    s5.memory_files = [] := by
  constructor
  · unfold patch
    rw [if_pos rfl]
    have hr : rmtree fs (output_path ++ "/romfs") = none := by
      unfold rmtree
      rw [if_neg hmissing]
    simp only [hstages, hr]
  · unfold stages_before_export at hstages
    cases h1 : create_init_copy s0 with
    | error err => simp only [h1] at hstages; cases hstages
    | ok s1 =>
      simp only [h1] at hstages
      cases h2 : (match cfg.elevators with
                  | some els => patch_elevators (replace_asset s1 "system/scripts/init.lc"
                      (.raw (create_custom_init init_template cfg.starting_items
                        cfg.starting_location))) els
                  | none => .ok (replace_asset s1 "system/scripts/init.lc"
                      (.raw (create_custom_init init_template cfg.starting_items
                        cfg.starting_location)))) with
      | error err => simp only [h2] at hstages; cases hstages
      | ok s3 =>
        simp only [h2] at hstages
        cases h3 : patch_pickups tmpl s3 cfg.pickups with
        | error err => simp only [h3] at hstages; cases hstages
        | ok s4 =>
          simp only [h3, Except.ok.injEq] at hstages
          subst hstages
          rfl

/-- C10 (witness): a first run into a fresh output directory (no `out/romfs`)
with a configuration whose in-memory stages all succeed: the run fails with
`FileNotFoundError` after the commit, and nothing is exported. -/
theorem C10_rmtree_unconditional_witness :
    stages_before_export custom_init_template sampleTemplate emptyConfig sampleEditor =
      .ok emptyRunStaged ∧
    ("out" ++ "/romfs") ∉ freshFs.dirs ∧
    patch custom_init_template sampleTemplate true emptyConfig sampleEditor freshFs "out" =
      .error (.fileNotFound ("out" ++ "/romfs"), emptyRunStaged, freshFs) ∧
    emptyRunStaged.memory_files = [] := by
  have h1 : stages_before_export custom_init_template sampleTemplate emptyConfig
      sampleEditor = .ok emptyRunStaged := rfl
  have h2 : ("out" ++ "/romfs") ∉ freshFs.dirs := by decide
  have h3 := C10_rmtree_unconditional custom_init_template sampleTemplate emptyConfig
    sampleEditor emptyRunStaged freshFs "out" h1 h2
  exact ⟨h1, h2, h3.1, h3.2⟩

end DreadPatcher
